import Mathlib

/-!
Verification development for the "Auto Mode" image-modal detector and the
image-acquisition pipeline of the virtual try-on browser extension.

The detector lives in `src/entrypoints/content/autoMode.ts`
(class `ImageModalDetector`), the content-script acquisition helpers in
`src/entrypoints/content/index.ts` (`fetchImageAsDataUrl`,
`normalizeImageFormat`).  The shallow embedding below translates those
functions into pure Lean definitions:

* DOM state that the functions read (elements with computed style, `<img>`
  elements with their size and bounding rectangle) is passed in explicitly;
* the single-threaded, event-driven execution (click events, the 800 ms
  settle timer scheduled by `setTimeout`, `enable()` / `disable()` calls)
  is modelled as a step function over an explicit detector state and a list
  of events, mirroring the JS event loop: each scheduled timer is recorded
  in a pending queue and a `timerFire` event pops the oldest entry (JS
  timers with equal delay fire FIFO);
* the asynchronous acquisition of a bitmap for an element
  (`imageToDataUrl`, which can resolve to a data URL, resolve to `null`,
  or reject) is abstracted for the detector-level theorems as an oracle
  `ImgEl → Option String`, where `none` covers both the `null` result and
  a thrown/rejected promise (both are handled identically by
  `captureImage`'s try/catch); the pipeline internals are embedded
  separately with their own environment oracles (fetch, canvas, bitmap
  decode/encode).

Numeric DOM quantities (naturalWidth, offsetWidth, rect coordinates) are
JS doubles that are integral in all behaviour relevant here; they are
modelled as `Nat` (sizes) and `Int` (coordinates).  Timestamps
(`Date.now()`) are `Nat` milliseconds.
-/

/-- A DOMRect as returned by `getBoundingClientRect()`. -/
structure DomRect where
  width : Nat
  height : Nat
  top : Int
  bottom : Int
  left : Int
  right : Int
  deriving DecidableEq

/-- An `HTMLImageElement` with the properties the detector reads. -/
structure ImgEl where
  src : String
  currentSrc : String
  naturalWidth : Nat
  naturalHeight : Nat
  offsetWidth : Nat
  offsetHeight : Nat
  rect : DomRect
  deriving DecidableEq

/-- A DOM element as seen by `findImageInModal`'s scan over
`document.querySelectorAll('*')`: its computed `position`, its computed
`z-index` as parsed by `parseInt` (`none` models `NaN`, e.g. for `auto`),
and the `<img>` descendants returned by `element.querySelectorAll('img')`,
in document order. -/
structure OverlayEl where
  position : String
  zIndex : Option Int
  imgs : List ImgEl
  deriving DecidableEq

/-- The resolution context of a click event, as read by
`findClickedImage`:
* `targetImg`: `some img` when `event.target` is itself an
  `HTMLImageElement`;
* `containedImg`: the first `<img>` descendant of the target
  (`target.querySelector('img')`);
* `containerImg`: the first `<img>` inside the nearest ancestor matching
  the product/photo/media container selectors
  (`target.closest('[class*="image"], ...')`); `none` covers both "no such
  ancestor" and "ancestor without an img". -/
structure ClickTarget where
  targetImg : Option ImgEl
  containedImg : Option ImgEl
  containerImg : Option ImgEl
  deriving DecidableEq

/-- `ClickedImageInfo` from autoMode.ts. -/
structure ClickedImageInfo where
  src : String
  width : Nat
  height : Nat
  rect : DomRect
  deriving DecidableEq

/-- The provenance tag `'modal' | 'direct'` of a `DetectedImage`. -/
inductive ImgSource where
  | modal
  | direct
  deriving DecidableEq

/-- The `DetectedImage` record handed to the detector's callback. -/
structure DetectedImage where
  dataUrl : String
  width : Nat
  height : Nat
  source : ImgSource
  deriving DecidableEq

/-- Instrumented record of one callback invocation (`onImageDetected`):
the emitted `DetectedImage`, the resolved source URL that became the new
cooldown anchor, the time of emission, and the time of the click whose
settle timer produced it (the latter two are bookkeeping used to state
temporal properties; they do not influence the dynamics). -/
structure Emission where
  detected : DetectedImage
  src : String
  time : Nat
  clickTime : Nat
  deriving DecidableEq

/-- A settle-delay timer scheduled by `handleClick` via `setTimeout`:
the closure captures `clickedImage`; `clickTime` is the scheduling time
and `fireTime = clickTime + MODAL_DETECTION_DELAY_MS` the nominal due
time. -/
structure PendingDetection where
  clicked : ClickedImageInfo
  clickTime : Nat
  fireTime : Nat
  deriving DecidableEq

/-- The mutable fields of `ImageModalDetector`, plus the queue of pending
settle-delay timers (owned by the JS event loop in the source; `disable()`
does not cancel them). -/
structure DetectorState where
  isEnabled : Bool
  isProcessing : Bool
  lastCapturedSrc : Option String
  lastCaptureTime : Nat
  pending : List PendingDetection
  deriving DecidableEq

/-- The parts of the document read during the search phase:
`elements` is `document.querySelectorAll('*')` (restricted to
`HTMLElement`s, the only ones the scan does not skip), `imgs` is
`document.querySelectorAll('img')`, and `innerWidth`/`innerHeight` are the
viewport dimensions. -/
structure DomState where
  elements : List OverlayEl
  imgs : List ImgEl
  innerWidth : Int
  innerHeight : Int
  deriving DecidableEq

/-- `MODAL_DETECTION_DELAY_MS` (settle delay before the search phase). -/
def MODAL_DETECTION_DELAY_MS : Nat := 800

/-- `MIN_IMAGE_SIZE` (minimum qualifying dimension in px). -/
def MIN_IMAGE_SIZE : Nat := 150

/-- `CAPTURE_COOLDOWN_MS` (duplicate-capture cooldown window). -/
def CAPTURE_COOLDOWN_MS : Nat := 3000

/-- JS `a || b` on numbers whose only falsy value here is `0`. -/
def jsOr (a b : Nat) : Nat := if a = 0 then b else a

/-- JS `a || b` on strings whose only falsy value here is `""`
(used for `img.currentSrc || img.src`). -/
def jsOrS (a b : String) : String := if a = "" then b else a

/-- `parseInt(style.zIndex) || 0`: `NaN` (modelled `none`) maps to `0`;
a parsed `0` is falsy and also maps to `0`, which is the same value. -/
def zIndexOr0 (z : Option Int) : Int :=
  match z with
  | none => 0
  | some v => v

/-- `img.naturalWidth || img.offsetWidth`. -/
def imgWidth (img : ImgEl) : Nat := jsOr img.naturalWidth img.offsetWidth

/-- `img.naturalHeight || img.offsetHeight`. -/
def imgHeight (img : ImgEl) : Nat := jsOr img.naturalHeight img.offsetHeight

/-- The pixel area `width * height` used to rank candidate images. -/
def imgArea (img : ImgEl) : Nat := imgWidth img * imgHeight img

/-- JS `s.startsWith(pat)` (also the semantics of a `^literal` regex
test), computed over the character list so that it evaluates inside the
kernel. -/
def startsWithS (s pat : String) : Bool :=
  decide (s.toList.take pat.toList.length = pat.toList)

/-- `getImageInfo` (autoMode.ts): natural-or-rendered dimensions, the
minimum-size filter, and the resolved source URL. -/
def getImageInfo (img : ImgEl) : Option ClickedImageInfo :=
  let width := jsOr img.naturalWidth img.offsetWidth
  let height := jsOr img.naturalHeight img.offsetHeight
  if width < MIN_IMAGE_SIZE ∨ height < MIN_IMAGE_SIZE then none
  else some { src := jsOrS img.currentSrc img.src, width := width, height := height,
              rect := img.rect }

/-- Third step of `findClickedImage`: the `target.closest(...)` branch.
If the container's img exists but has an empty `src`, the function
returns `null` (there is no further fallback in the source). -/
def findClickedImageContainer (target : ClickTarget) : Option ClickedImageInfo :=
  match target.containerImg with
  | some img => if img.src ≠ "" then getImageInfo img else none
  | none => none

/-- Second step of `findClickedImage`: the `target.querySelector('img')`
branch; falls through to the container branch when the descendant is
missing or has an empty `src`. -/
def findClickedImageContained (target : ClickTarget) : Option ClickedImageInfo :=
  match target.containedImg with
  | some img => if img.src ≠ "" then getImageInfo img else findClickedImageContainer target
  | none => findClickedImageContainer target

/-- `findClickedImage` (autoMode.ts): direct `<img>` target, else first
`<img>` descendant, else `<img>` inside the nearest container-like
ancestor.  Note that once a branch is taken, `getImageInfo`'s `null`
(min-size failure) is returned directly, with no fallthrough to later
branches — exactly as the early `return` statements in the source. -/
def findClickedImage (target : ClickTarget) : Option ClickedImageInfo :=
  match target.targetImg with
  | some img => if img.src ≠ "" then getImageInfo img else findClickedImageContained target
  | none => findClickedImageContained target

/-- The `<img>` element a click resolves to, before the `getImageInfo`
size filter: the same branch selection as `findClickedImage`, returning
the chosen element itself. -/
def resolvedImgContainer (target : ClickTarget) : Option ImgEl :=
  match target.containerImg with
  | some img => if img.src ≠ "" then some img else none
  | none => none

/-- Second step of `resolvedImg`. -/
def resolvedImgContained (target : ClickTarget) : Option ImgEl :=
  match target.containedImg with
  | some img => if img.src ≠ "" then some img else resolvedImgContainer target
  | none => resolvedImgContainer target

/-- The element selected by `findClickedImage`'s branch chain, before the
size filter is applied. -/
def resolvedImg (target : ClickTarget) : Option ImgEl :=
  match target.targetImg with
  | some img => if img.src ≠ "" then some img else resolvedImgContained target
  | none => resolvedImgContained target

/-- The modal-indicator test of `findImageInModal`: computed `position`
fixed or absolute, and numeric `z-index` greater than 100. -/
def overlayCondB (el : OverlayEl) : Bool :=
  (decide (el.position = "fixed") || decide (el.position = "absolute"))
    && decide (100 < zIndexOr0 el.zIndex)

/-- The body of `findImageInModal`'s inner loop over the `<img>`
descendants of one modal candidate, threading the `(bestModalImage,
bestModalImageSize)` accumulator: skip empty/SVG-data sources, skip
images under the minimum size, skip images with a zero-sized rendered
rectangle, and otherwise keep the image iff its area strictly exceeds the
best so far. -/
def modalStep (acc : Option ImgEl × Nat) (img : ImgEl) : Option ImgEl × Nat :=
  if img.src = "" ∨ startsWithS img.src "data:image/svg" = true then acc
  else if imgWidth img < MIN_IMAGE_SIZE ∨ imgHeight img < MIN_IMAGE_SIZE then acc
  else if img.rect.width = 0 ∨ img.rect.height = 0 then acc
  else if acc.2 < imgArea img then (some img, imgArea img) else acc

/-- Tier A, `findImageInModal` (autoMode.ts): scan every element, and for
those that look like a modal overlay, fold the inner loop over their
`<img>` descendants; start from `(null, 0)` and return the best image. -/
def findImageInModal (elements : List OverlayEl) : Option ImgEl :=
  (elements.foldl
    (fun acc el => if overlayCondB el = true then el.imgs.foldl modalStep acc else acc)
    (none, 0)).1

/-- The body of `findLargestVisibleImage`'s loop: skip empty/SVG-data
sources, skip images whose area does not strictly exceed the clicked
image's area, skip images under the minimum size, skip zero-sized rects,
skip images whose rect lies fully outside the viewport, and otherwise
keep the image iff its area strictly exceeds the best so far. -/
def visStep (clickedSize : Nat) (iw ih : Int) (acc : Option ImgEl × Nat) (img : ImgEl) :
    Option ImgEl × Nat :=
  if img.src = "" ∨ startsWithS img.src "data:image/svg" = true then acc
  else if imgArea img ≤ clickedSize then acc
  else if imgWidth img < MIN_IMAGE_SIZE ∨ imgHeight img < MIN_IMAGE_SIZE then acc
  else if img.rect.width = 0 ∨ img.rect.height = 0 then acc
  else if img.rect.bottom < 0 ∨ ih < img.rect.top then acc
  else if img.rect.right < 0 ∨ iw < img.rect.left then acc
  else if acc.2 < imgArea img then (some img, imgArea img) else acc

/-- Tier B, `findLargestVisibleImage` (autoMode.ts): fold over
`document.querySelectorAll('img')` starting from
`(null, clickedSize)`. -/
def findLargestVisibleImage (dom : DomState) (clickedImage : ClickedImageInfo) :
    Option ImgEl :=
  (dom.imgs.foldl
    (visStep (clickedImage.width * clickedImage.height) dom.innerWidth dom.innerHeight)
    (none, clickedImage.width * clickedImage.height)).1

/-- Tier C helper, `findImageBySrc` (autoMode.ts): the first `<img>` whose
`src` or `currentSrc` equals the given URL. -/
def findImageBySrc (imgs : List ImgEl) (src : String) : Option ImgEl :=
  imgs.find? fun img => decide (img.src = src) || decide (img.currentSrc = src)

/-- The selection performed by `findAndCaptureModalImage`: Tier A
(modal scan), then Tier B (largest on page), then Tier C (re-resolve the
clicked image by source URL), together with the provenance tag each tier
passes to `captureImage`. -/
def tierSearch (dom : DomState) (clickedImage : ClickedImageInfo) :
    Option (ImgEl × ImgSource) :=
  match findImageInModal dom.elements with
  | some img => some (img, ImgSource.modal)
  | none =>
    match findLargestVisibleImage dom clickedImage with
    | some img => some (img, ImgSource.modal)
    | none =>
      match findImageBySrc dom.imgs clickedImage.src with
      | some img => some (img, ImgSource.direct)
      | none => none

/-- `captureImage` (autoMode.ts).  `acq` is the result of
`await this.imageToDataUrl(img)`: `some dataUrl` when it resolves to a
non-null data URL, `none` when it resolves to `null` or throws (both are
absorbed by the surrounding try/catch with only a log).  `now` models
`Date.now()` during this callback run, `clickTime` is bookkeeping.  On
success the cooldown anchor (`lastCapturedSrc`, `lastCaptureTime`) is
updated and the callback is invoked once. -/
def captureImage (s : DetectorState) (img : ImgEl) (source : ImgSource)
    (now clickTime : Nat) (acq : ImgEl → Option String) :
    DetectorState × List Emission :=
  let src := jsOrS img.currentSrc img.src
  if some src = s.lastCapturedSrc ∧ now - s.lastCaptureTime < CAPTURE_COOLDOWN_MS then
    (s, [])
  else
    match acq img with
    | none => (s, [])
    | some dataUrl =>
      ({ s with lastCapturedSrc := some src, lastCaptureTime := now },
       [{ detected := { dataUrl := dataUrl, width := imgWidth img,
                        height := imgHeight img, source := source },
          src := src, time := now, clickTime := clickTime }])

/-- `findAndCaptureModalImage` (autoMode.ts): the three tiers in order,
the first that yields an element being handed to `captureImage` with
provenance `modal` (Tiers A and B) or `direct` (Tier C). -/
def findAndCaptureModalImage (s : DetectorState) (dom : DomState)
    (acq : ImgEl → Option String) (clickedImage : ClickedImageInfo)
    (now clickTime : Nat) : DetectorState × List Emission :=
  match findImageInModal dom.elements with
  | some img => captureImage s img ImgSource.modal now clickTime acq
  | none =>
    match findLargestVisibleImage dom clickedImage with
    | some img => captureImage s img ImgSource.modal now clickTime acq
    | none =>
      match findImageBySrc dom.imgs clickedImage.src with
      | some img => captureImage s img ImgSource.direct now clickTime acq
      | none => (s, [])

/-- `handleClick` (autoMode.ts): re-entrancy guard, click resolution,
cooldown check, then `isProcessing = true` and scheduling of the settle
timer (whose closure captures `clickedImage`). -/
def handleClick (s : DetectorState) (now : Nat) (target : ClickTarget) : DetectorState :=
  if s.isProcessing then s
  else
    match findClickedImage target with
    | none => s
    | some clickedImage =>
      if now - s.lastCaptureTime < CAPTURE_COOLDOWN_MS then s
      else
        { s with isProcessing := true,
                 pending := s.pending ++
                   [{ clicked := clickedImage, clickTime := now,
                      fireTime := now + MODAL_DETECTION_DELAY_MS }] }

/-- An event of the single-threaded page event loop, as seen by the
detector:
* `click now target`: a capturing-phase click at time `now` (delivered to
  `handleClick` only while the listener is attached, i.e. while enabled);
* `timerFire now dom acq`: the oldest scheduled settle timer's callback
  runs at time `now`, reading the document state `dom` and with the
  acquisition pipeline behaving as `acq`;
* `enableEv` / `disableEv`: the `enable()` / `disable()` methods. -/
inductive DetEvent where
  | click (now : Nat) (target : ClickTarget)
  | timerFire (now : Nat) (dom : DomState) (acq : ImgEl → Option String)
  | enableEv
  | disableEv

/-- One step of the event loop.  `enable()`/`disable()` are the guarded
listener management from the source; `disable()` resets `isProcessing`
but does not cancel pending timers, and the timer callback (the
`setTimeout` body of `handleClick`) runs `findAndCaptureModalImage` with
no check of the enabled flag, then clears `isProcessing` in its
`finally`. -/
def stepEvent (s : DetectorState) (e : DetEvent) : DetectorState × List Emission :=
  match e with
  | DetEvent.enableEv =>
    (if s.isEnabled then s else { s with isEnabled := true }, [])
  | DetEvent.disableEv =>
    (if s.isEnabled then { s with isEnabled := false, isProcessing := false } else s, [])
  | DetEvent.click now target =>
    (if s.isEnabled then handleClick s now target else s, [])
  | DetEvent.timerFire now dom acq =>
    match s.pending with
    | [] => (s, [])
    | p :: rest =>
      let s1 : DetectorState := { s with pending := rest }
      let r := findAndCaptureModalImage s1 dom acq p.clicked now p.clickTime
      ({ r.1 with isProcessing := false }, r.2)

/-- Run a list of events, collecting all callback invocations. -/
def runEvents : DetectorState → List DetEvent → DetectorState × List Emission
  | s, [] => (s, [])
  | s, e :: rest =>
    ((runEvents (stepEvent s e).1 rest).1,
     (stepEvent s e).2 ++ (runEvents (stepEvent s e).1 rest).2)

/-- The detector state right after construction. -/
def initState : DetectorState :=
  { isEnabled := false, isProcessing := false, lastCapturedSrc := none,
    lastCaptureTime := 0, pending := [] }

/-- `disable()` is never called while a detection is in flight: every
`disableEv` of the trace is processed in a state with no pending settle
timer (an "idle" disable).  This is exactly the proviso of the amended
claims C5 and C9; idle `disable()` / `enable()` pairs are permitted
anywhere in the trace. -/
def noDisableInFlight : DetectorState → List DetEvent → Bool
  | _, [] => true
  | s, e :: rest =>
    (match e with
     | DetEvent.disableEv => decide (s.pending = [])
     | _ => true)
      && noDisableInFlight (stepEvent s e).1 rest

/-- Well-formedness of an event trace with respect to the page event
loop, starting from clock `t`: timed events carry strictly increasing
millisecond timestamps, and a `timerFire` only occurs while a timer is
actually scheduled.  (This is deliberately weaker than the real
scheduler — it does not force timers to fire exactly 800 ms after
scheduling — so every real execution is covered.) -/
def wfEvents : Nat → DetectorState → List DetEvent → Bool
  | _, _, [] => true
  | t, s, e :: rest =>
    match e with
    | DetEvent.click now _ =>
      decide (t < now) && wfEvents now (stepEvent s e).1 rest
    | DetEvent.timerFire now _ _ =>
      decide (t < now) && decide (s.pending ≠ []) && wfEvents now (stepEvent s e).1 rest
    | DetEvent.enableEv => wfEvents t (stepEvent s e).1 rest
    | DetEvent.disableEv => wfEvents t (stepEvent s e).1 rest

/-! ## The image-acquisition pipeline (content/index.ts and autoMode.ts) -/

/-- A `Blob`: declared MIME type and payload (kept in its base64 text
form, which is how every consumer here serialises it). -/
structure Blob where
  type : String
  dataB64 : String
  deriving DecidableEq

/-- An `ImageBitmap` produced by `createImageBitmap`. -/
structure Bitmap where
  width : Nat
  height : Nat
  deriving DecidableEq

/-- Environment for the canvas-based re-encode: `createImageBitmap`
(`none` models a rejected promise, e.g. undecodable data),
`canvas.getContext('2d')` availability, and `canvas.toBlob(..,
'image/png')` (`none` models the `null` result). -/
structure CanvasEnv where
  createImageBitmap : Blob → Option Bitmap
  getContext2dOk : Bool
  toBlobPng : Bitmap → Option Blob

/-- A `fetch` `Response`: `ok`, `status`, and the blob of its body. -/
structure FetchResponse where
  ok : Bool
  status : Nat
  blob : Blob
  deriving DecidableEq

/-- `convertToPng` (autoMode.ts): only an `image/png` blob passes through
unchanged; everything else is decoded and re-encoded, with every failure
(bitmap decode throws, no 2d context, `toBlob` yields `null`) falling
back to the original blob. -/
def convertToPng (env : CanvasEnv) (blob : Blob) : Blob :=
  if blob.type = "image/png" then blob
  else
    match env.createImageBitmap blob with
    | none => blob
    | some bitmap =>
      if env.getContext2dOk = false then blob
      else
        match env.toBlobPng bitmap with
        | none => blob
        | some newBlob => newBlob

/-- `normalizeImageFormat` (content/index.ts): both `image/jpeg` and
`image/png` pass through unchanged (`['image/jpeg',
'image/png'].includes(blob.type)`); everything else is decoded and
re-encoded to PNG, with every failure falling back to the original
blob. -/
def normalizeImageFormat (env : CanvasEnv) (blob : Blob) : Blob :=
  if blob.type = "image/jpeg" ∨ blob.type = "image/png" then blob
  else
    match env.createImageBitmap blob with
    | none => blob
    | some bitmap =>
      if env.getContext2dOk = false then blob
      else
        match env.toBlobPng bitmap with
        | none => blob
        | some newBlob => newBlob

/-- The test `result.match(/^data:image\/[^;]+;base64,/)` performed on the
`FileReader` output: a literal `data:image/` head, at least one
non-semicolon subtype character, then the literal `;base64,`.  (A regex
`[^;]+` followed by a literal `;` can only match the maximal semicolon-free
run, so `takeWhile` is exact.) -/
def matchesImageDataUrl (s : String) : Bool :=
  decide (s.toList.take (("data:image/").toList.length) = ("data:image/").toList)
    && (decide (0 < ((s.toList.drop (("data:image/").toList.length)).takeWhile
          (fun c => c != ';')).length)
      && decide ((((s.toList.drop (("data:image/").toList.length)).drop
            (((s.toList.drop (("data:image/").toList.length)).takeWhile
              (fun c => c != ';')).length)).take ((";base64,").toList.length))
          = (";base64,").toList))

/-- `FileReader.readAsDataURL` on an in-memory blob, which produces
`data:<type>;base64,<payload>`.  (The reader's error path exists in the
source but cannot trigger for an in-memory blob; it is not modelled.) -/
def readerResult (blob : Blob) : String :=
  "data:" ++ blob.type ++ (";base64," ++ blob.dataB64)

/-- The tail of `fetchImageAsDataUrl` after a successful response:
normalize the blob, serialise it with `FileReader`, and validate the
result against the image data-URL pattern, rejecting with
`Invalid data URL format` otherwise. -/
def fetchResultToDataUrl (cenv : CanvasEnv) (blob : Blob) : Except String String :=
  let normalizedBlob := normalizeImageFormat cenv blob
  let result := readerResult normalizedBlob
  if matchesImageDataUrl result = true then Except.ok result
  else Except.error "Invalid data URL format"

/-- Environment for `fetchImageAsDataUrl`: the two fetch configurations
the source can issue (`{mode:'cors', credentials:'omit'}` and
`{credentials:'include'}`), each either rejecting (network/CORS error,
carrying the error message) or resolving to a response, plus the canvas
environment used by format normalization. -/
structure FetchEnv where
  fetchCorsOmit : String → Except String FetchResponse
  fetchInclude : String → Except String FetchResponse
  canvasEnv : CanvasEnv

/-- `fetchImageAsDataUrl` (content/index.ts): fetch with
`mode:'cors', credentials:'omit'`; if the response is not ok, fetch again
with `credentials:'include'`; if the final response is still not ok,
throw (the thrown `Failed to fetch image: <status>` message is wrapped a
second time by the outer catch, faithfully reproduced here); otherwise
read, normalize and validate the blob.  A rejected fetch goes to the
outer catch without any retry.  The final validation rejection
(`Invalid data URL format`) propagates unwrapped, because the source
returns the reader promise rather than awaiting it inside the try. -/
def fetchImageAsDataUrl (env : FetchEnv) (imageUrl : String) : Except String String :=
  match env.fetchCorsOmit imageUrl with
  | Except.error e => Except.error ("Failed to fetch image: " ++ e)
  | Except.ok r1 =>
    match (if r1.ok = false then env.fetchInclude imageUrl else Except.ok r1) with
    | Except.error e => Except.error ("Failed to fetch image: " ++ e)
    | Except.ok r2 =>
      if r2.ok = false then
        Except.error ("Failed to fetch image: " ++ ("Failed to fetch image: " ++ toString r2.status))
      else fetchResultToDataUrl env.canvasEnv r2.blob

/-- Environment for the canvas tier of `imageToDataUrl` (autoMode.ts):
`getContext('2d')` availability and the combined
draw-and-`toDataURL('image/png')` step, whose `Except.error` models the
security exception thrown on a tainted canvas (or a draw failure). -/
structure CanvasDrawEnv where
  getContext2dOk : Bool
  toDataURL : ImgEl → Except String String

/-- Method 2 of `imageToDataUrl` (autoMode.ts): a single
`fetch(src, {mode:'cors', credentials:'omit'})` — with no credentialed
retry — whose failure, non-ok status, or non-image content type each
yield `null` via the catch; otherwise `convertToPng` and the
`FileReader`, whose result is accepted only when it starts with
`data:image/` (a rejection is surfaced to `captureImage`, which treats it
like `null`; both are `none` here). -/
def imageToDataUrlFetchTier (benv : CanvasEnv)
    (fetchCorsOmit : String → Except String FetchResponse) (img : ImgEl) :
    Option String :=
  match fetchCorsOmit (jsOrS img.currentSrc img.src) with
  | Except.error _ => none
  | Except.ok response =>
    if response.ok = false then none
    else if startsWithS response.blob.type "image/" = false then none
    else
      let pngBlob := convertToPng benv response.blob
      let result := readerResult pngBlob
      if startsWithS result "data:image/" = true then some result else none

/-- `imageToDataUrl` (autoMode.ts): Method 1 draws the element to a
canvas — with an early `return null` when `getContext('2d')` fails — and
accepts the serialised PNG only when it is longer than 100 characters and
has the PNG data-URL head; on a canvas exception, or a data URL failing
that check, it falls through to the fetch tier. -/
def imageToDataUrl (cenv : CanvasDrawEnv) (benv : CanvasEnv)
    (fetchCorsOmit : String → Except String FetchResponse) (img : ImgEl) :
    Option String :=
  if cenv.getContext2dOk = false then none
  else
    match cenv.toDataURL img with
    | Except.ok dataUrl =>
      if 100 < dataUrl.toList.length ∧ startsWithS dataUrl "data:image/png;base64," = true then
        some dataUrl
      else imageToDataUrlFetchTier benv fetchCorsOmit img
    | Except.error _ => imageToDataUrlFetchTier benv fetchCorsOmit img

/-! ## Selection lemmas for the two argmax scans -/

/-- The qualification test folded into `findImageInModal`'s inner loop:
non-empty non-SVG-data source, both natural-or-rendered dimensions at
least `MIN_IMAGE_SIZE`, and a non-zero rendered rectangle. -/
def modalQual (img : ImgEl) : Bool :=
  !(decide (img.src = "") || startsWithS img.src "data:image/svg")
    && !(decide (imgWidth img < MIN_IMAGE_SIZE) || decide (imgHeight img < MIN_IMAGE_SIZE))
    && !(decide (img.rect.width = 0) || decide (img.rect.height = 0))

/-- The qualification test folded into `findLargestVisibleImage`'s loop:
additionally the area must strictly exceed the clicked image's area and
the rectangle must intersect the viewport. -/
def visQual (clickedSize : Nat) (iw ih : Int) (img : ImgEl) : Bool :=
  !(decide (img.src = "") || startsWithS img.src "data:image/svg")
    && decide (clickedSize < imgArea img)
    && !(decide (imgWidth img < MIN_IMAGE_SIZE) || decide (imgHeight img < MIN_IMAGE_SIZE))
    && !(decide (img.rect.width = 0) || decide (img.rect.height = 0))
    && !(decide (img.rect.bottom < 0) || decide (ih < img.rect.top))
    && !(decide (img.rect.right < 0) || decide (iw < img.rect.left))

/-- Generic form of both loop bodies: keep the image iff it qualifies and
its area strictly exceeds the best so far. -/
def selStep (p : ImgEl → Bool) (acc : Option ImgEl × Nat) (img : ImgEl) :
    Option ImgEl × Nat :=
  if p img = true then
    (if acc.2 < imgArea img then (some img, imgArea img) else acc)
  else acc

lemma modalStep_eq : modalStep = selStep modalQual := by
  funext acc img
  simp only [modalStep, selStep, modalQual, imgArea]
  by_cases h1 : img.src = "" ∨ startsWithS img.src "data:image/svg" = true
  · rcases h1 with h1 | h1 <;> simp [h1]
  · push_neg at h1
    by_cases h2 : imgWidth img < MIN_IMAGE_SIZE ∨ imgHeight img < MIN_IMAGE_SIZE
    · rcases h2 with h2 | h2 <;> simp [h1.1, h1.2, h2]
    · push_neg at h2
      by_cases h3 : img.rect.width = 0 ∨ img.rect.height = 0
      · rcases h3 with h3 | h3 <;>
          simp [h1.1, h1.2, Nat.not_lt.mpr h2.1, Nat.not_lt.mpr h2.2, h3]
      · push_neg at h3
        simp [h1.1, h1.2, Nat.not_lt.mpr h2.1, Nat.not_lt.mpr h2.2, h3.1, h3.2]

lemma visStep_eq (clickedSize : Nat) (iw ih : Int) :
    visStep clickedSize iw ih = selStep (visQual clickedSize iw ih) := by
  funext acc img
  simp only [visStep, selStep, visQual]
  by_cases h1 : img.src = "" ∨ startsWithS img.src "data:image/svg" = true
  · rcases h1 with h1 | h1 <;> simp [h1]
  · push_neg at h1
    by_cases hs : imgArea img ≤ clickedSize
    · simp [h1.1, h1.2, hs, Nat.not_lt.mpr hs]
    · push_neg at hs
      by_cases h2 : imgWidth img < MIN_IMAGE_SIZE ∨ imgHeight img < MIN_IMAGE_SIZE
      · rcases h2 with h2 | h2 <;> simp [h1.1, h1.2, Nat.not_le.mpr hs, hs, h2]
      · push_neg at h2
        by_cases h3 : img.rect.width = 0 ∨ img.rect.height = 0
        · rcases h3 with h3 | h3 <;>
            simp [h1.1, h1.2, Nat.not_le.mpr hs, hs, Nat.not_lt.mpr h2.1,
              Nat.not_lt.mpr h2.2, h3]
        · push_neg at h3
          by_cases h4 : img.rect.bottom < 0 ∨ ih < img.rect.top
          · rcases h4 with h4 | h4 <;>
              simp [h1.1, h1.2, Nat.not_le.mpr hs, hs, Nat.not_lt.mpr h2.1,
                Nat.not_lt.mpr h2.2, h3.1, h3.2, h4]
          · push_neg at h4
            by_cases h5 : img.rect.right < 0 ∨ iw < img.rect.left
            · rcases h5 with h5 | h5 <;>
                simp [h1.1, h1.2, Nat.not_le.mpr hs, hs, Nat.not_lt.mpr h2.1,
                  Nat.not_lt.mpr h2.2, h3.1, h3.2, Int.not_lt.mpr h4.1,
                  Int.not_lt.mpr h4.2, h5]
            · push_neg at h5
              simp [h1.1, h1.2, Nat.not_le.mpr hs, hs, Nat.not_lt.mpr h2.1,
                Nat.not_lt.mpr h2.2, h3.1, h3.2, Int.not_lt.mpr h4.1,
                Int.not_lt.mpr h4.2, Int.not_lt.mpr h5.1, Int.not_lt.mpr h5.2]

/-- Core facts about the argmax fold: the best size never decreases, it
bounds the area of every qualifying element of the list, and the result
is either the untouched accumulator or a qualifying element of the list
together with its area. -/
lemma sel_fold (p : ImgEl → Bool) :
    ∀ (L : List ImgEl) (acc : Option ImgEl × Nat),
      acc.2 ≤ (L.foldl (selStep p) acc).2
      ∧ (∀ j ∈ L, p j = true → imgArea j ≤ (L.foldl (selStep p) acc).2)
      ∧ ((L.foldl (selStep p) acc) = acc
         ∨ ∃ i, i ∈ L ∧ p i = true ∧ (L.foldl (selStep p) acc).1 = some i
             ∧ (L.foldl (selStep p) acc).2 = imgArea i) := by
  intro L
  induction L with
  | nil => intro acc; simp
  | cons a L ih =>
    intro acc
    have h := ih (selStep p acc a)
    have hstep1 : acc.2 ≤ (selStep p acc a).2 := by
      unfold selStep
      by_cases h1 : p a = true
      · by_cases h2 : acc.2 < imgArea a <;> simp [h1, h2] <;> omega
      · simp [h1]
    have hstep2 : p a = true → imgArea a ≤ (selStep p acc a).2 := by
      intro h1
      unfold selStep
      by_cases h2 : acc.2 < imgArea a <;> simp [h1, h2] <;> omega
    have hstep3 : selStep p acc a = acc
        ∨ (p a = true ∧ (selStep p acc a).1 = some a ∧ (selStep p acc a).2 = imgArea a) := by
      unfold selStep
      by_cases h1 : p a = true
      · by_cases h2 : acc.2 < imgArea a <;> simp [h1, h2]
      · simp [h1]
    refine ⟨?_, ?_, ?_⟩
    · simpa using le_trans hstep1 h.1
    · intro j hj hpj
      rcases List.mem_cons.mp hj with rfl | hj
      · simpa using le_trans (hstep2 hpj) h.1
      · simpa using h.2.1 j hj hpj
    · rcases h.2.2 with heq | ⟨i, hi, hpi, h1, h2⟩
      · rcases hstep3 with hacc | ⟨hpa, ha1, ha2⟩
        · left; simpa [hacc] using heq
        · right
          exact ⟨a, List.mem_cons_self a L, hpa, by simpa [heq] using ha1,
            by simpa [heq] using ha2⟩
      · right
        exact ⟨i, List.mem_cons_of_mem a hi, hpi, by simpa using h1, by simpa using h2⟩

/-- The `<img>` descendants of the elements passing the modal-indicator
test, in scan order. -/
def overlayImgs : List OverlayEl → List ImgEl
  | [] => []
  | el :: rest => (if overlayCondB el = true then el.imgs else []) ++ overlayImgs rest

/-- The images Tier A actually chooses among. -/
def modalCandidates (elements : List OverlayEl) : List ImgEl :=
  (overlayImgs elements).filter modalQual

/-- The images Tier B actually chooses among. -/
def visCandidates (dom : DomState) (clickedImage : ClickedImageInfo) : List ImgEl :=
  dom.imgs.filter
    (visQual (clickedImage.width * clickedImage.height) dom.innerWidth dom.innerHeight)

lemma findImageInModal_eq_fold (elements : List OverlayEl) :
    findImageInModal elements
      = ((overlayImgs elements).foldl (selStep modalQual) (none, 0)).1 := by
  unfold findImageInModal
  rw [modalStep_eq]
  congr 1
  generalize (none (α := ImgEl), 0) = acc
  induction elements generalizing acc with
  | nil => simp [overlayImgs]
  | cons el rest ih =>
    by_cases hc : overlayCondB el = true
    · simp [overlayImgs, hc, List.foldl_append, ih]
    · simp [overlayImgs, hc, ih]

lemma modalQual_area_pos {img : ImgEl} (h : modalQual img = true) :
    MIN_IMAGE_SIZE * MIN_IMAGE_SIZE ≤ imgArea img := by
  have h2 := h
  unfold modalQual at h2
  simp only [Bool.and_eq_true, Bool.not_eq_true', Bool.or_eq_false_iff,
    decide_eq_false_iff_not, Nat.not_lt] at h2
  exact Nat.mul_le_mul h2.1.2.1 h2.1.2.2

lemma visQual_area_gt {clickedSize : Nat} {iw ih : Int} {img : ImgEl}
    (h : visQual clickedSize iw ih img = true) : clickedSize < imgArea img := by
  have h2 := h
  unfold visQual at h2
  simp only [Bool.and_eq_true, decide_eq_true_eq] at h2
  exact h2.1.1.1.1.2

/-! ## Claim C2 — Tier A (modal scan) -/

/-- C2 (amended): Tier A selects, among the visible (non-zero rendered
size), non-SVG-placeholder, non-empty-source `<img>` descendants of
elements with computed position fixed/absolute and numeric z-index above
100 **whose natural-or-rendered width and height are both at least the
150 px minimum-size threshold**, one with the largest pixel area
(natural-or-rendered width times height); it returns nothing exactly when
no such image exists. -/
theorem c2_tierA_selects_largest (elements : List OverlayEl) :
    (∀ i, findImageInModal elements = some i →
      i ∈ modalCandidates elements ∧ ∀ j ∈ modalCandidates elements, imgArea j ≤ imgArea i)
    ∧ (findImageInModal elements = none ↔ modalCandidates elements = []) := by
  obtain ⟨hmono, hbound, hcases⟩ := sel_fold modalQual (overlayImgs elements) (none, 0)
  rw [findImageInModal_eq_fold] at *
  constructor
  · intro i hi
    rcases hcases with heq | ⟨i2, hmem, hqual, hsome, harea⟩
    · rw [heq] at hi; simp at hi
    · rw [hsome] at hi
      have hii : i2 = i := by injection hi
      refine ⟨hii ▸ List.mem_filter.mpr ⟨hmem, hqual⟩, ?_⟩
      intro j hj
      obtain ⟨hjm, hjq⟩ := List.mem_filter.mp hj
      have h1 := hbound j hjm hjq
      rw [harea, hii] at h1
      exact h1
  · constructor
    · intro hnone
      rcases hcases with heq | ⟨i2, hmem, hqual, hsome, _⟩
      · refine List.filter_eq_nil_iff.mpr ?_
        intro a ha hqa
        have h1 := hbound a ha hqa
        have h2 := modalQual_area_pos hqa
        rw [heq] at h1
        simp [MIN_IMAGE_SIZE] at h1 h2
        omega
      · rw [hsome] at hnone; simp at hnone
    · intro hnil
      rcases hcases with heq | ⟨i2, hmem, hqual, hsome, _⟩
      · rw [heq]
      · exfalso
        have : i2 ∈ modalCandidates elements := List.mem_filter.mpr ⟨hmem, hqual⟩
        rw [hnil] at this
        simp at this

/-- Qualification as worded by claim C2: visible (non-zero rendered
size) and not an SVG placeholder, with no minimum-size requirement.
Follows the claim's words, for comparison against the source's Tier A. -/
def claimQualA (img : ImgEl) : Bool :=
  !(decide (img.src = "") || startsWithS img.src "data:image/svg")
    && !(decide (img.rect.width = 0) || decide (img.rect.height = 0))

/-- The overlay images qualifying under claim C2's wording. -/
def claimCandidatesA (elements : List OverlayEl) : List ImgEl :=
  (overlayImgs elements).filter claimQualA

/-- A 100x100 (natural), visibly rendered, non-SVG product image inside
a fixed-position overlay with z-index 200. -/
def imgC2 : ImgEl :=
  { src := "https://shop.example/p.jpg", currentSrc := "",
    naturalWidth := 100, naturalHeight := 100, offsetWidth := 0, offsetHeight := 0,
    rect := { width := 50, height := 50, top := 10, bottom := 60, left := 10, right := 60 } }

/-- A single modal overlay containing only `imgC2`. -/
def elsC2 : List OverlayEl :=
  [{ position := "fixed", zIndex := some 200, imgs := [imgC2] }]

/-- C2 counterexample: an overlay image that qualifies under the claim's
wording exists (`imgC2` is visible, non-SVG, inside a fixed overlay with
z-index 200), so the claim requires Tier A to return it; the source's
`findImageInModal` returns nothing because `imgC2` is below the 150 px
minimum-size threshold the claim omits. -/
theorem c2_counterexample :
    claimCandidatesA elsC2 = [imgC2] ∧ findImageInModal elsC2 = none := by decide

/-- A 800x1000, visibly rendered image inside a fixed overlay. -/
def imgC2w : ImgEl :=
  { src := "https://shop.example/big.jpg", currentSrc := "",
    naturalWidth := 800, naturalHeight := 1000, offsetWidth := 0, offsetHeight := 0,
    rect := { width := 400, height := 500, top := 0, bottom := 500, left := 0, right := 400 } }

/-- A single modal overlay containing `imgC2w`. -/
def elsC2w : List OverlayEl :=
  [{ position := "fixed", zIndex := some 1000, imgs := [imgC2w] }]

theorem c2_witness :
    imgC2w ∈ modalCandidates elsC2w ∧ imgArea imgC2w ≤ imgArea imgC2w :=
  ⟨((c2_tierA_selects_largest elsC2w).1 imgC2w (by decide)).1,
   ((c2_tierA_selects_largest elsC2w).1 imgC2w (by decide)).2 imgC2w
     (((c2_tierA_selects_largest elsC2w).1 imgC2w (by decide)).1)⟩

/-! ## Claim C3 — Tier B (largest on page) -/

/-- C3 (amended): Tier B selects, among the `<img>` elements with
non-empty, non-SVG-data source, non-zero rendered size, bounding box
intersecting the viewport, **natural-or-rendered width and height both at
least 150 px**, and pixel area strictly exceeding the clicked image's
area, one with the largest pixel area; it returns nothing exactly when no
such image exists. -/
theorem c3_tierB_selects_largest (dom : DomState) (clickedImage : ClickedImageInfo) :
    (∀ i, findLargestVisibleImage dom clickedImage = some i →
      i ∈ visCandidates dom clickedImage
        ∧ clickedImage.width * clickedImage.height < imgArea i
        ∧ ∀ j ∈ visCandidates dom clickedImage, imgArea j ≤ imgArea i)
    ∧ (findLargestVisibleImage dom clickedImage = none
        ↔ visCandidates dom clickedImage = []) := by
  obtain ⟨hmono, hbound, hcases⟩ :=
    sel_fold (visQual (clickedImage.width * clickedImage.height) dom.innerWidth dom.innerHeight)
      dom.imgs (none, clickedImage.width * clickedImage.height)
  have hunfold : findLargestVisibleImage dom clickedImage
      = (dom.imgs.foldl
          (selStep (visQual (clickedImage.width * clickedImage.height)
            dom.innerWidth dom.innerHeight))
          (none, clickedImage.width * clickedImage.height)).1 := by
    unfold findLargestVisibleImage
    rw [visStep_eq]
  rw [hunfold]
  constructor
  · intro i hi
    rcases hcases with heq | ⟨i2, hmem, hqual, hsome, harea⟩
    · rw [heq] at hi; simp at hi
    · rw [hsome] at hi
      have hii : i2 = i := by injection hi
      refine ⟨hii ▸ List.mem_filter.mpr ⟨hmem, hqual⟩, hii ▸ visQual_area_gt hqual, ?_⟩
      intro j hj
      obtain ⟨hjm, hjq⟩ := List.mem_filter.mp hj
      have h1 := hbound j hjm hjq
      rw [harea, hii] at h1
      exact h1
  · constructor
    · intro hnone
      rcases hcases with heq | ⟨i2, hmem, hqual, hsome, _⟩
      · refine List.filter_eq_nil_iff.mpr ?_
        intro a ha hqa
        have h1 := hbound a ha hqa
        have h2 := visQual_area_gt hqa
        rw [heq] at h1
        simp at h1
        omega
      · rw [hsome] at hnone; simp at hnone
    · intro hnil
      rcases hcases with heq | ⟨i2, hmem, hqual, hsome, _⟩
      · rw [heq]
      · exfalso
        have : i2 ∈ visCandidates dom clickedImage := List.mem_filter.mpr ⟨hmem, hqual⟩
        rw [hnil] at this
        simp at this

/-- Qualification as worded by claim C3: non-zero rendered size, bounding
box intersecting the viewport, and area strictly above the clicked
image's area — with no minimum-size requirement and no SVG-placeholder
exclusion.  Follows the claim's words, for comparison against the
source's Tier B. -/
def claimQualB (clickedSize : Nat) (iw ih : Int) (img : ImgEl) : Bool :=
  !(decide (img.rect.width = 0) || decide (img.rect.height = 0))
    && !(decide (img.rect.bottom < 0) || decide (ih < img.rect.top))
    && !(decide (img.rect.right < 0) || decide (iw < img.rect.left))
    && decide (clickedSize < imgArea img)

/-- The in-viewport images qualifying under claim C3's wording. -/
def claimCandidatesB (dom : DomState) (clickedImage : ClickedImageInfo) : List ImgEl :=
  dom.imgs.filter
    (claimQualB (clickedImage.width * clickedImage.height) dom.innerWidth dom.innerHeight)

/-- The originally clicked 150x150 thumbnail. -/
def clickedC3 : ClickedImageInfo :=
  { src := "https://shop.example/t.jpg", width := 150, height := 150,
    rect := { width := 150, height := 150, top := 0, bottom := 150, left := 0, right := 150 } }

/-- A large inline-SVG placeholder (1000x1000) rendered in the viewport. -/
def svgC3 : ImgEl :=
  { src := "data:image/svg+xml;base64,PHN2Zz48L3N2Zz4=", currentSrc := "",
    naturalWidth := 1000, naturalHeight := 1000, offsetWidth := 0, offsetHeight := 0,
    rect := { width := 500, height := 500, top := 0, bottom := 500, left := 0, right := 500 } }

/-- A 100x400 image in the viewport: its area (40000) exceeds the clicked
area (22500), but its width is below the 150 px threshold. -/
def smallC3 : ImgEl :=
  { src := "https://shop.example/wide.jpg", currentSrc := "",
    naturalWidth := 100, naturalHeight := 400, offsetWidth := 0, offsetHeight := 0,
    rect := { width := 100, height := 400, top := 0, bottom := 400, left := 200, right := 300 } }

/-- The page for the C3 counterexample. -/
def domC3 : DomState :=
  { elements := [], imgs := [svgC3, smallC3], innerWidth := 1280, innerHeight := 800 }

/-- C3 counterexample: both images qualify under the claim's wording
(non-zero rendered size, in viewport, area strictly above the clicked
image's), so the claim requires Tier B to return the larger of them; the
source's `findLargestVisibleImage` returns nothing, because it also
excludes `data:image/svg` sources and images below the 150 px
minimum-size threshold. -/
theorem c3_counterexample :
    claimCandidatesB domC3 clickedC3 = [svgC3, smallC3]
      ∧ findLargestVisibleImage domC3 clickedC3 = none := by decide

/-- A 900x900 image in the viewport for the C3 witness. -/
def bigC3w : ImgEl :=
  { src := "https://shop.example/full.jpg", currentSrc := "",
    naturalWidth := 900, naturalHeight := 900, offsetWidth := 0, offsetHeight := 0,
    rect := { width := 600, height := 600, top := 0, bottom := 600, left := 0, right := 600 } }

/-- The page for the C3 witness. -/
def domC3w : DomState :=
  { elements := [], imgs := [bigC3w], innerWidth := 1280, innerHeight := 800 }

theorem c3_witness :
    bigC3w ∈ visCandidates domC3w clickedC3
      ∧ clickedC3.width * clickedC3.height < imgArea bigC3w :=
  ⟨((c3_tierB_selects_largest domC3w clickedC3).1 bigC3w (by decide)).1,
   ((c3_tierB_selects_largest domC3w clickedC3).1 bigC3w (by decide)).2.1⟩

/-! ## Capture-step analysis -/

lemma captureImage_none {acq : ImgEl → Option String} {img : ImgEl}
    (s : DetectorState) (source : ImgSource) (now clickTime : Nat)
    (h : acq img = none) :
    captureImage s img source now clickTime acq = (s, []) := by
  unfold captureImage
  by_cases hdup : some (jsOrS img.currentSrc img.src) = s.lastCapturedSrc
      ∧ now - s.lastCaptureTime < CAPTURE_COOLDOWN_MS
  · simp [hdup]
  · simp [hdup, h]

lemma captureImage_cases (s : DetectorState) (img : ImgEl) (source : ImgSource)
    (now clickTime : Nat) (acq : ImgEl → Option String) :
    captureImage s img source now clickTime acq = (s, [])
    ∨ ∃ em : Emission,
        captureImage s img source now clickTime acq
          = ({ s with lastCapturedSrc := some em.src, lastCaptureTime := now }, [em])
        ∧ em.time = now ∧ em.clickTime = clickTime ∧ em.detected.source = source := by
  unfold captureImage
  by_cases hdup : some (jsOrS img.currentSrc img.src) = s.lastCapturedSrc
      ∧ now - s.lastCaptureTime < CAPTURE_COOLDOWN_MS
  · left; simp [hdup]
  · cases hacq : acq img with
    | none => left; simp [hdup, hacq]
    | some dataUrl =>
      right
      refine ⟨{ detected := { dataUrl := dataUrl, width := imgWidth img,
                              height := imgHeight img, source := source },
                src := jsOrS img.currentSrc img.src, time := now, clickTime := clickTime },
              ?_, rfl, rfl, rfl⟩
      simp [hdup, hacq]

lemma fac_eq_tierSearch (s : DetectorState) (dom : DomState)
    (acq : ImgEl → Option String) (clickedImage : ClickedImageInfo) (now clickTime : Nat) :
    findAndCaptureModalImage s dom acq clickedImage now clickTime
      = match tierSearch dom clickedImage with
        | none => (s, [])
        | some (i, src) => captureImage s i src now clickTime acq := by
  unfold findAndCaptureModalImage tierSearch
  cases h1 : findImageInModal dom.elements with
  | some img => rfl
  | none =>
    cases h2 : findLargestVisibleImage dom clickedImage with
    | some img => rfl
    | none =>
      cases h3 : findImageBySrc dom.imgs clickedImage.src with
      | some img => rfl
      | none => rfl

lemma fac_cases (s : DetectorState) (dom : DomState) (acq : ImgEl → Option String)
    (clickedImage : ClickedImageInfo) (now clickTime : Nat) :
    findAndCaptureModalImage s dom acq clickedImage now clickTime = (s, [])
    ∨ ∃ em : Emission,
        findAndCaptureModalImage s dom acq clickedImage now clickTime
          = ({ s with lastCapturedSrc := some em.src, lastCaptureTime := now }, [em])
        ∧ em.time = now ∧ em.clickTime = clickTime := by
  rw [fac_eq_tierSearch]
  cases h : tierSearch dom clickedImage with
  | none => left; rfl
  | some pr =>
    rcases captureImage_cases s pr.1 pr.2 now clickTime acq with hc | ⟨em, hc, ht, hct, _⟩
    · left; simpa using hc
    · right; exact ⟨em, by simpa using hc, ht, hct⟩

/-! ## Claim C4 — tier order and provenance -/

/-- C4: on each qualifying click's search phase the tiers run in the
fixed order A (modal scan), B (largest on page), C (re-resolve by source
URL), the first yielding an element wins, and any emitted `DetectedImage`
carries provenance `modal` when the winner came from Tier A or B and
`direct` when it came from Tier C. -/
theorem c4_tier_order_and_provenance (dom : DomState) (clickedImage : ClickedImageInfo)
    (s : DetectorState) (now clickTime : Nat) (acq : ImgEl → Option String) :
    (∀ i, findImageInModal dom.elements = some i →
      tierSearch dom clickedImage = some (i, ImgSource.modal))
    ∧ (findImageInModal dom.elements = none →
        ∀ i, findLargestVisibleImage dom clickedImage = some i →
          tierSearch dom clickedImage = some (i, ImgSource.modal))
    ∧ (findImageInModal dom.elements = none →
        findLargestVisibleImage dom clickedImage = none →
          tierSearch dom clickedImage
            = Option.map (fun i => (i, ImgSource.direct))
                (findImageBySrc dom.imgs clickedImage.src))
    ∧ (∀ e ∈ (findAndCaptureModalImage s dom acq clickedImage now clickTime).2,
        ∃ i src, tierSearch dom clickedImage = some (i, src)
          ∧ e.detected.source = src) := by
  refine ⟨?_, ?_, ?_, ?_⟩
  · intro i h1
    unfold tierSearch
    rw [h1]
  · intro h1 i h2
    unfold tierSearch
    rw [h1, h2]
  · intro h1 h2
    unfold tierSearch
    rw [h1, h2]
    cases h3 : findImageBySrc dom.imgs clickedImage.src <;> rfl
  · intro e he
    rw [fac_eq_tierSearch] at he
    cases h : tierSearch dom clickedImage with
    | none => rw [h] at he; simp at he
    | some pr =>
      obtain ⟨i0, src0⟩ := pr
      rw [h] at he
      have he2 : e ∈ (captureImage s i0 src0 now clickTime acq).2 := he
      rcases captureImage_cases s i0 src0 now clickTime acq with hc | ⟨em, hc, _, _, hsrc⟩
      · rw [hc] at he2; simp at he2
      · rw [hc] at he2
        simp at he2
        exact ⟨i0, src0, rfl, by rw [he2, hsrc]⟩

/-- The overlay image for the C4 witness. -/
def imgC4 : ImgEl :=
  { src := "https://shop.example/c4.jpg", currentSrc := "",
    naturalWidth := 800, naturalHeight := 800, offsetWidth := 0, offsetHeight := 0,
    rect := { width := 600, height := 600, top := 0, bottom := 600, left := 0, right := 600 } }

/-- The page for the C4 witness: one absolute-position overlay with
z-index 500 containing `imgC4`. -/
def domC4 : DomState :=
  { elements := [{ position := "absolute", zIndex := some 500, imgs := [imgC4] }],
    imgs := [imgC4], innerWidth := 1280, innerHeight := 800 }

/-- The clicked thumbnail for the C4 witness. -/
def clickedC4 : ClickedImageInfo :=
  { src := "https://shop.example/c4-thumb.jpg", width := 200, height := 200,
    rect := { width := 200, height := 200, top := 0, bottom := 200, left := 0, right := 200 } }

/-- The acquisition oracle for the C4 witness. -/
def acqC4 : ImgEl → Option String := fun _ => some "data:image/png;base64,AAAA"

/-- The emission the C4 witness run produces. -/
def emC4 : Emission :=
  { detected := { dataUrl := "data:image/png;base64,AAAA", width := 800, height := 800,
                  source := ImgSource.modal },
    src := "https://shop.example/c4.jpg", time := 10800, clickTime := 10000 }

theorem c4_witness :
    tierSearch domC4 clickedC4 = some (imgC4, ImgSource.modal)
    ∧ ∃ i src, tierSearch domC4 clickedC4 = some (i, src) ∧ emC4.detected.source = src :=
  ⟨(c4_tier_order_and_provenance domC4 clickedC4 initState 10800 10000 acqC4).1
      imgC4 (by decide),
   (c4_tier_order_and_provenance domC4 clickedC4 initState 10800 10000 acqC4).2.2.2
      emC4 (by decide)⟩

/-! ## Claim C10 — failed acquisition leaves the cooldown anchor unchanged -/

/-- C10: when the acquisition pipeline fails for a capture attempt
(`imageToDataUrl` resolves to null or throws — `acq _ = none`), the
search phase invokes no callback and leaves `lastCapturedSrc` and
`lastCaptureTime` unchanged; more generally, any capture attempt that
emits nothing leaves both cooldown-anchor fields unchanged, so only a
successful capture starts or extends a cooldown window. -/
theorem c10_failed_capture_keeps_anchor (s : DetectorState) (dom : DomState)
    (acq : ImgEl → Option String) (clickedImage : ClickedImageInfo) (now clickTime : Nat) :
    (∀ i src, tierSearch dom clickedImage = some (i, src) → acq i = none →
      findAndCaptureModalImage s dom acq clickedImage now clickTime = (s, []))
    ∧ (∀ s2 ems,
        findAndCaptureModalImage s dom acq clickedImage now clickTime = (s2, ems) →
        ems = [] →
        s2.lastCapturedSrc = s.lastCapturedSrc ∧ s2.lastCaptureTime = s.lastCaptureTime) := by
  constructor
  · intro i src h1 h2
    rw [fac_eq_tierSearch, h1]
    exact captureImage_none s src now clickTime h2
  · intro s2 ems h1 h2
    rcases fac_cases s dom acq clickedImage now clickTime with hc | ⟨em, hc, _, _⟩
    · have heq : (s2, ems) = (s, []) := by rw [← h1]; exact hc
      have hs2 : s2 = s := congrArg Prod.fst heq
      exact ⟨by rw [hs2], by rw [hs2]⟩
    · have heq : (s2, ems)
          = ({ s with lastCapturedSrc := some em.src, lastCaptureTime := now }, [em]) := by
        rw [← h1]; exact hc
      have : ems = [em] := congrArg Prod.snd heq
      rw [h2] at this
      simp at this

/-- The image for the C10 witness. -/
def imgC10 : ImgEl :=
  { src := "https://shop.example/c10.jpg", currentSrc := "",
    naturalWidth := 700, naturalHeight := 700, offsetWidth := 0, offsetHeight := 0,
    rect := { width := 500, height := 500, top := 0, bottom := 500, left := 0, right := 500 } }

/-- The page for the C10 witness. -/
def domC10 : DomState :=
  { elements := [{ position := "fixed", zIndex := some 300, imgs := [imgC10] }],
    imgs := [imgC10], innerWidth := 1280, innerHeight := 800 }

/-- The clicked thumbnail for the C10 witness. -/
def clickedC10 : ClickedImageInfo :=
  { src := "https://shop.example/c10-thumb.jpg", width := 160, height := 160,
    rect := { width := 160, height := 160, top := 0, bottom := 160, left := 0, right := 160 } }

theorem c10_witness :
    findAndCaptureModalImage initState domC10 (fun _ => none) clickedC10 10800 10000
      = (initState, [])
    ∧ initState.lastCapturedSrc = initState.lastCapturedSrc
    ∧ initState.lastCaptureTime = initState.lastCaptureTime :=
  ⟨(c10_failed_capture_keeps_anchor initState domC10 (fun _ => none) clickedC10
      10800 10000).1 imgC10 ImgSource.modal (by decide) rfl,
   (c10_failed_capture_keeps_anchor initState domC10 (fun _ => none) clickedC10
      10800 10000).2 initState []
      ((c10_failed_capture_keeps_anchor initState domC10 (fun _ => none) clickedC10
        10800 10000).1 imgC10 ImgSource.modal (by decide) rfl) rfl⟩

/-! ## Click resolution and emission attribution -/

lemma findClickedImage_eq_bind (target : ClickTarget) :
    findClickedImage target = (resolvedImg target).bind getImageInfo := by
  unfold findClickedImage resolvedImg findClickedImageContained resolvedImgContained
    findClickedImageContainer resolvedImgContainer
  cases target.targetImg with
  | some img =>
    by_cases h1 : img.src ≠ ""
    · simp [h1]
    · simp only [if_neg h1]
      cases target.containedImg with
      | some img2 =>
        by_cases h2 : img2.src ≠ ""
        · simp [h2]
        · simp only [if_neg h2]
          cases target.containerImg with
          | some img3 => by_cases h3 : img3.src ≠ "" <;> simp [h3]
          | none => simp
      | none =>
        cases target.containerImg with
        | some img3 => by_cases h3 : img3.src ≠ "" <;> simp [h3]
        | none => simp
  | none =>
    cases target.containedImg with
    | some img2 =>
      by_cases h2 : img2.src ≠ ""
      · simp [h2]
      · simp only [if_neg h2]
        cases target.containerImg with
        | some img3 => by_cases h3 : img3.src ≠ "" <;> simp [h3]
        | none => simp
    | none =>
      cases target.containerImg with
      | some img3 => by_cases h3 : img3.src ≠ "" <;> simp [h3]
      | none => simp

lemma getImageInfo_none_of_small {img : ImgEl}
    (h : imgWidth img < MIN_IMAGE_SIZE ∨ imgHeight img < MIN_IMAGE_SIZE) :
    getImageInfo img = none := by
  unfold getImageInfo
  simp only [imgWidth, imgHeight] at h
  simp [h]

lemma handleClick_cases (s : DetectorState) (now : Nat) (target : ClickTarget) :
    handleClick s now target = s
    ∨ ∃ info, findClickedImage target = some info ∧ s.isProcessing = false
        ∧ ¬ now - s.lastCaptureTime < CAPTURE_COOLDOWN_MS
        ∧ handleClick s now target
          = { s with isProcessing := true,
                     pending := s.pending ++
                       [{ clicked := info, clickTime := now,
                          fireTime := now + MODAL_DETECTION_DELAY_MS }] } := by
  unfold handleClick
  by_cases hp : s.isProcessing = true
  · left; simp [hp]
  · cases hf : findClickedImage target with
    | none => left; simp [hp, hf]
    | some info =>
      by_cases hcd : now - s.lastCaptureTime < CAPTURE_COOLDOWN_MS
      · left; simp [hp, hf, hcd]
      · right
        exact ⟨info, rfl, by simpa using hp, hcd, by simp [hp, hf, hcd]⟩

/-- Every emission's `clickTime` originates either from a timer already
pending at the start of the run or from a click event of the trace that
resolved to a qualifying image. -/
lemma run_emission_origin :
    ∀ (evs : List DetEvent) (s : DetectorState) (e : Emission),
      e ∈ (runEvents s evs).2 →
      (∃ p ∈ s.pending, p.clickTime = e.clickTime)
      ∨ (∃ now target, DetEvent.click now target ∈ evs ∧ now = e.clickTime
          ∧ findClickedImage target ≠ none) := by
  intro evs
  induction evs with
  | nil => intro s e he; simp [runEvents] at he
  | cons ev rest ih =>
    intro s e he
    simp only [runEvents] at he
    rcases List.mem_append.mp he with h1 | h1
    · cases ev with
      | click now target => simp [stepEvent] at h1
      | enableEv => simp [stepEvent] at h1
      | disableEv => simp [stepEvent] at h1
      | timerFire now dom acq =>
        cases hp : s.pending with
        | nil => simp [stepEvent, hp] at h1
        | cons p rest2 =>
          have h1b : e ∈ (findAndCaptureModalImage { s with pending := rest2 }
              dom acq p.clicked now p.clickTime).2 := by
            simpa [stepEvent, hp] using h1
          rcases fac_cases { s with pending := rest2 } dom acq p.clicked now p.clickTime with
            hc | ⟨em, hc, _, hct⟩
          · rw [hc] at h1b; simp at h1b
          · rw [hc] at h1b
            simp at h1b
            left
            exact ⟨p, by simp [hp], by rw [h1b, hct]⟩
    · rcases ih (stepEvent s ev).1 e h1 with ⟨p, hpm, hpc⟩ | ⟨now, target, hm, hn, hf⟩
      · cases ev with
        | enableEv =>
          left
          refine ⟨p, ?_, hpc⟩
          by_cases hen : s.isEnabled = true <;> simpa [stepEvent, hen] using hpm
        | disableEv =>
          left
          refine ⟨p, ?_, hpc⟩
          by_cases hen : s.isEnabled = true <;> simpa [stepEvent, hen] using hpm
        | timerFire now dom acq =>
          left
          refine ⟨p, ?_, hpc⟩
          cases hpd : s.pending with
          | nil => simpa [stepEvent, hpd] using hpm
          | cons p0 rest2 =>
            have hpm2 : p ∈ ({ (findAndCaptureModalImage { s with pending := rest2 }
                dom acq p0.clicked now p0.clickTime).1 with isProcessing := false
                  : DetectorState }).pending := by
              simpa [stepEvent, hpd] using hpm
            rcases fac_cases { s with pending := rest2 } dom acq p0.clicked now p0.clickTime with
              hc | ⟨em, hc, _, _⟩
            · rw [hc] at hpm2
              simp at hpm2
              simp [hpd, hpm2]
            · rw [hc] at hpm2
              simp at hpm2
              simp [hpd, hpm2]
        | click now target =>
          by_cases hen : s.isEnabled = true
          · rcases handleClick_cases s now target with hh | ⟨info, hfnd, _, _, hh⟩
            · left
              refine ⟨p, ?_, hpc⟩
              simpa [stepEvent, hen, hh] using hpm
            · have hpm2 : p ∈ s.pending ++
                  [{ clicked := info, clickTime := now,
                     fireTime := now + MODAL_DETECTION_DELAY_MS }] := by
                simpa [stepEvent, hen, hh] using hpm
              rcases List.mem_append.mp hpm2 with hold | hnew
              · exact Or.inl ⟨p, hold, hpc⟩
              · right
                simp at hnew
                refine ⟨now, target, List.mem_cons_self .., ?_, by simp [hfnd]⟩
                rw [← hpc, hnew]
          · left
            refine ⟨p, ?_, hpc⟩
            simpa [stepEvent, hen] using hpm
      · exact Or.inr ⟨now, target, List.mem_cons_of_mem ev hm, hn, hf⟩

/-! ## Claim C6 — minimum-size filter at click time -/

/-- C6: a click resolving to an image whose natural-or-rendered width or
height is below the 150 px threshold is discarded at click time (the
click leaves the state unchanged and schedules nothing), and no emission
of the whole run is attributable to such a click. -/
theorem c6_small_image_never_emits (evs : List DetEvent) (t : Nat) :
    (∀ (s : DetectorState) (now : Nat) (target : ClickTarget) (img : ImgEl),
      resolvedImg target = some img →
      imgWidth img < MIN_IMAGE_SIZE ∨ imgHeight img < MIN_IMAGE_SIZE →
      stepEvent s (DetEvent.click now target) = (s, []))
    ∧ ((∀ now target, DetEvent.click now target ∈ evs → now = t →
          ∃ img, resolvedImg target = some img
            ∧ (imgWidth img < MIN_IMAGE_SIZE ∨ imgHeight img < MIN_IMAGE_SIZE)) →
        ∀ e ∈ (runEvents initState evs).2, e.clickTime ≠ t) := by
  have hdrop : ∀ (s : DetectorState) (now : Nat) (target : ClickTarget) (img : ImgEl),
      resolvedImg target = some img →
      imgWidth img < MIN_IMAGE_SIZE ∨ imgHeight img < MIN_IMAGE_SIZE →
      stepEvent s (DetEvent.click now target) = (s, []) := by
    intro s now target img hres hsmall
    unfold stepEvent
    by_cases hen : s.isEnabled = true
    · have hh : handleClick s now target = s := by
        unfold handleClick
        by_cases hp : s.isProcessing = true
        · simp [hp]
        · rw [findClickedImage_eq_bind, hres]
          simp [getImageInfo_none_of_small hsmall, hp]
      simp [hen, hh]
    · simp [hen]
  refine ⟨hdrop, ?_⟩
  intro hall e he hte
  rcases run_emission_origin evs initState e he with ⟨p, hpm, _⟩ | ⟨now, target, hm, hn, hf⟩
  · simp [initState] at hpm
  · obtain ⟨img, hres, hsmall⟩ := hall now target hm (by rw [hn, hte])
    apply hf
    rw [findClickedImage_eq_bind, hres]
    simp [getImageInfo_none_of_small hsmall]

/-- A 100x100 image, below the minimum size. -/
def smallImgC6 : ImgEl :=
  { src := "https://shop.example/icon.jpg", currentSrc := "",
    naturalWidth := 100, naturalHeight := 100, offsetWidth := 0, offsetHeight := 0,
    rect := { width := 100, height := 100, top := 0, bottom := 100, left := 0, right := 100 } }

/-- A click directly on `smallImgC6`. -/
def targetSmallC6 : ClickTarget :=
  { targetImg := some smallImgC6, containedImg := none, containerImg := none }

/-- A 600x600 image for the qualifying click of the C6 witness trace. -/
def bigImgC6 : ImgEl :=
  { src := "https://shop.example/c6.jpg", currentSrc := "",
    naturalWidth := 600, naturalHeight := 600, offsetWidth := 0, offsetHeight := 0,
    rect := { width := 600, height := 600, top := 0, bottom := 600, left := 0, right := 600 } }

/-- A click directly on `bigImgC6`. -/
def targetBigC6 : ClickTarget :=
  { targetImg := some bigImgC6, containedImg := none, containerImg := none }

/-- The page at the C6 witness's timer fire. -/
def domC6 : DomState :=
  { elements := [], imgs := [bigImgC6], innerWidth := 1280, innerHeight := 800 }

/-- The acquisition oracle of the C6 witness trace. -/
def acqC6 : ImgEl → Option String := fun _ => some "data:image/png;base64,QkJCQg=="

/-- C6 witness trace: a small-image click at t = 777, then a qualifying
click at t = 10000 whose timer fires at t = 10800. -/
def evsC6 : List DetEvent :=
  [DetEvent.enableEv, DetEvent.click 777 targetSmallC6,
   DetEvent.click 10000 targetBigC6, DetEvent.timerFire 10800 domC6 acqC6]

/-- The emission produced by `evsC6`. -/
def emC6 : Emission :=
  { detected := { dataUrl := "data:image/png;base64,QkJCQg==", width := 600, height := 600,
                  source := ImgSource.direct },
    src := "https://shop.example/c6.jpg", time := 10800, clickTime := 10000 }

theorem c6_witness : emC6.clickTime ≠ 777 :=
  (c6_small_image_never_emits evsC6 777).2
    (by
      intro now target hm hn
      simp only [evsC6, List.mem_cons, List.not_mem_nil, or_false] at hm
      rcases hm with h | h | h | h
      · injection h
      · injection h with h1 h2
        subst h2
        exact ⟨smallImgC6, by decide, by decide⟩
      · injection h with h1 h2
        omega
      · injection h)
    emC6 (by decide)

/-! ## Claim C1 — disable() does not stop a pending settle timer -/

/-- The image clicked in the C1 failing trace. -/
def imgC1 : ImgEl :=
  { src := "https://shop.example/c1.jpg", currentSrc := "",
    naturalWidth := 600, naturalHeight := 600, offsetWidth := 0, offsetHeight := 0,
    rect := { width := 600, height := 600, top := 0, bottom := 600, left := 0, right := 600 } }

/-- A click directly on `imgC1`. -/
def targetC1 : ClickTarget :=
  { targetImg := some imgC1, containedImg := none, containerImg := none }

/-- The page at the C1 trace's timer fire. -/
def domC1 : DomState :=
  { elements := [], imgs := [imgC1], innerWidth := 1280, innerHeight := 800 }

/-- The acquisition oracle of the C1 trace (acquisition succeeds). -/
def acqC1 : ImgEl → Option String := fun _ => some "data:image/png;base64,QUFBQQ=="

/-- The C1 failing trace: enable, qualifying click at t = 10000,
`disable()` at some point before the settle timer fires, timer fires at
t = 10800. -/
def evsC1 : List DetEvent :=
  [DetEvent.enableEv, DetEvent.click 10000 targetC1, DetEvent.disableEv,
   DetEvent.timerFire 10800 domC1 acqC1]

/-- C1 (code bug): in the source, the settle-timer callback checks
neither `isEnabled` nor `isProcessing`; running the C1 trace — where
`disable()` is called while the timer is pending — still produces exactly
one `DetectedImage` emission when the timer fires, although the detector
is disabled at that moment.  The claim (and spec §5/§8) requires no
emission in this trace. -/
theorem c1_disable_pending_timer_still_emits :
    (runEvents initState evsC1).2.map Emission.src = ["https://shop.example/c1.jpg"]
    ∧ (runEvents initState evsC1).1.isEnabled = false := by decide

/-! ## Trace invariant for runs without mid-detection disables -/

/-- Invariant of a run in which `disable()` only ever happens while no
detection is pending: `t` bounds every past timestamp
(strictly below the next event's time), `E` is the list of emissions so
far.  The busy flag mirrors pendency, at most one timer is pending, every
pending timer was scheduled at least a cooldown after every previous
emission's click, the cooldown anchor bounds all emission times, and any
two distinct emissions' clicks are separated by at least the cooldown
window. -/
structure DetInv (t : Nat) (E : List Emission) (s : DetectorState) : Prop where
  proc_iff : s.isProcessing = true ↔ s.pending ≠ []
  at_most_one : s.pending.length ≤ 1
  pend_le : ∀ p ∈ s.pending, p.clickTime ≤ t
  pend_gap : ∀ p ∈ s.pending, ∀ e ∈ E, e.clickTime + CAPTURE_COOLDOWN_MS ≤ p.clickTime
  last_le : s.lastCaptureTime ≤ t
  em_le : ∀ e ∈ E, e.clickTime ≤ e.time ∧ e.time ≤ s.lastCaptureTime
  gap : ∀ e1 ∈ E, ∀ e2 ∈ E, e1.clickTime < e2.clickTime →
    e1.clickTime + CAPTURE_COOLDOWN_MS ≤ e2.clickTime

lemma DetInv.of_fields {t : Nat} {E : List Emission} {s s2 : DetectorState}
    (h : DetInv t E s) (hpr : s2.isProcessing = s.isProcessing)
    (hpe : s2.pending = s.pending) (hl : s2.lastCaptureTime = s.lastCaptureTime) :
    DetInv t E s2 := by
  refine ⟨?_, ?_, ?_, ?_, ?_, ?_, h.gap⟩
  · rw [hpr, hpe]; exact h.proc_iff
  · rw [hpe]; exact h.at_most_one
  · rw [hpe]; exact h.pend_le
  · rw [hpe]; exact h.pend_gap
  · rw [hl]; exact h.last_le
  · rw [hl]; exact h.em_le

lemma DetInv.mono {t t2 : Nat} {E : List Emission} {s : DetectorState}
    (h : DetInv t E s) (hle : t ≤ t2) : DetInv t2 E s := by
  refine ⟨h.proc_iff, h.at_most_one, ?_, h.pend_gap, le_trans h.last_le hle, h.em_le, h.gap⟩
  intro p hp
  exact le_trans (h.pend_le p hp) hle

lemma detInv_init : DetInv 0 [] initState := by
  refine ⟨?_, ?_, ?_, ?_, ?_, ?_, ?_⟩ <;> simp [initState]

lemma inv_enable {t : Nat} {E : List Emission} {s : DetectorState} (h : DetInv t E s) :
    DetInv t E (stepEvent s DetEvent.enableEv).1 := by
  by_cases hen : s.isEnabled = true
  · exact h.of_fields (by simp [stepEvent, hen]) (by simp [stepEvent, hen])
      (by simp [stepEvent, hen])
  · exact h.of_fields (by simp [stepEvent, hen]) (by simp [stepEvent, hen])
      (by simp [stepEvent, hen])

/-- An idle `disable()` (no pending settle timer) preserves the
invariant: it clears `isProcessing`, but the busy flag was already clear
because nothing was pending. -/
lemma inv_disable {t : Nat} {E : List Emission} {s : DetectorState}
    (h : DetInv t E s) (hp : s.pending = []) :
    DetInv t E (stepEvent s DetEvent.disableEv).1 := by
  have hproc : s.isProcessing = false := by
    cases hcase : s.isProcessing
    · rfl
    · exact absurd hp (h.proc_iff.mp hcase)
  by_cases hen : s.isEnabled = true
  · exact h.of_fields (by simp [stepEvent, hen, hproc]) (by simp [stepEvent, hen])
      (by simp [stepEvent, hen])
  · exact h.of_fields (by simp [stepEvent, hen]) (by simp [stepEvent, hen])
      (by simp [stepEvent, hen])

lemma inv_click {t : Nat} {E : List Emission} {s : DetectorState}
    (now : Nat) (target : ClickTarget) (h : DetInv t E s) (hlt : t < now) :
    DetInv now E (stepEvent s (DetEvent.click now target)).1 := by
  by_cases hen : s.isEnabled = true
  · rcases handleClick_cases s now target with hh | ⟨info, hfnd, hproc, hcd, hh⟩
    · exact (h.mono (le_of_lt hlt)).of_fields (by simp [stepEvent, hen, hh])
        (by simp [stepEvent, hen, hh]) (by simp [stepEvent, hen, hh])
    · have hpend : s.pending = [] := by
        by_contra hne
        have := h.proc_iff.mpr hne
        rw [hproc] at this
        simp at this
      have hstate : (stepEvent s (DetEvent.click now target)).1
          = { s with isProcessing := true,
                     pending := [{ clicked := info, clickTime := now,
                                   fireTime := now + MODAL_DETECTION_DELAY_MS }] } := by
        simp [stepEvent, hen, hh, hpend]
      rw [hstate]
      refine ⟨by simp, by simp, ?_, ?_, ?_, ?_, h.gap⟩
      · intro p hp
        simp at hp
        simp [hp]
      · intro p hp e he
        simp at hp
        have h1 := (h.em_le e he).1
        have h2 := (h.em_le e he).2
        have h3 : CAPTURE_COOLDOWN_MS ≤ now - s.lastCaptureTime := Nat.not_lt.mp hcd
        simp only [hp, CAPTURE_COOLDOWN_MS] at h3 ⊢
        omega
      · simpa using le_trans h.last_le (le_of_lt hlt)
      · simpa using h.em_le
  · exact (h.mono (le_of_lt hlt)).of_fields (by simp [stepEvent, hen])
      (by simp [stepEvent, hen]) (by simp [stepEvent, hen])

lemma inv_fire {t : Nat} {E : List Emission} {s : DetectorState}
    (now : Nat) (dom : DomState) (acq : ImgEl → Option String)
    (h : DetInv t E s) (hlt : t < now) :
    DetInv now (E ++ (stepEvent s (DetEvent.timerFire now dom acq)).2)
      (stepEvent s (DetEvent.timerFire now dom acq)).1 := by
  cases hp : s.pending with
  | nil =>
    have hstep : stepEvent s (DetEvent.timerFire now dom acq) = (s, []) := by
      simp [stepEvent, hp]
    rw [hstep]
    simpa using h.mono (le_of_lt hlt)
  | cons p rest =>
    have hrest : rest = [] := by
      have := h.at_most_one
      rw [hp] at this
      simp at this
      exact this
    subst hrest
    have hphead : p ∈ s.pending := by rw [hp]; exact List.mem_cons_self ..
    rcases fac_cases { s with pending := [] } dom acq p.clicked now p.clickTime with
      hc | ⟨em, hc, htm, hct⟩
    · have hstep1 : (stepEvent s (DetEvent.timerFire now dom acq)).1
          = { s with pending := [], isProcessing := false } := by
        simp [stepEvent, hp, hc]
      have hstep2 : (stepEvent s (DetEvent.timerFire now dom acq)).2 = [] := by
        simp [stepEvent, hp, hc]
      rw [hstep1, hstep2, List.append_nil]
      refine ⟨by simp, by simp, by simp, by simp, ?_, ?_, h.gap⟩
      · simpa using le_trans h.last_le (le_of_lt hlt)
      · simpa using h.em_le
    · have hstep1 : (stepEvent s (DetEvent.timerFire now dom acq)).1
          = { s with pending := [], lastCapturedSrc := some em.src, lastCaptureTime := now, isProcessing := false } := by
        simp [stepEvent, hp, hc]
      have hstep2 : (stepEvent s (DetEvent.timerFire now dom acq)).2 = [em] := by
        simp [stepEvent, hp, hc]
      rw [hstep1, hstep2]
      have hpte : p.clickTime ≤ t := h.pend_le p hphead
      have hgapnew : ∀ e ∈ E, e.clickTime + CAPTURE_COOLDOWN_MS ≤ em.clickTime := by
        intro e he
        rw [hct]
        exact h.pend_gap p hphead e he
      refine ⟨by simp, by simp, by simp, by simp, by simp, ?_, ?_⟩
      · intro e he
        simp only [List.mem_append, List.mem_singleton] at he
        rcases he with he | rfl
        · have h1 := h.em_le e he
          refine ⟨h1.1, ?_⟩
          simp only
          have := h.last_le
          omega
        · refine ⟨?_, by simp [htm]⟩
          rw [htm, hct]
          omega
      · intro e1 he1 e2 he2 hlt2
        simp only [List.mem_append, List.mem_singleton] at he1 he2
        rcases he1 with he1 | rfl <;> rcases he2 with he2 | rfl
        · exact h.gap e1 he1 e2 he2 hlt2
        · exact hgapnew e1 he1
        · have := hgapnew e2 he2
          omega
        · omega

lemma runEvents_inv :
    ∀ (evs : List DetEvent) (t : Nat) (s : DetectorState) (E : List Emission),
      noDisableInFlight s evs = true →
      wfEvents t s evs = true →
      DetInv t E s →
      ∃ t2, DetInv t2 (E ++ (runEvents s evs).2) (runEvents s evs).1 := by
  intro evs
  induction evs with
  | nil =>
    intro t s E _ _ h
    exact ⟨t, by simpa [runEvents] using h⟩
  | cons ev rest ih =>
    intro t s E hnd hwf h
    cases ev with
    | enableEv =>
      have hndr : noDisableInFlight (stepEvent s DetEvent.enableEv).1 rest = true := by
        simpa [noDisableInFlight] using hnd
      have hwf2 : wfEvents t (stepEvent s DetEvent.enableEv).1 rest = true := by
        simpa [wfEvents] using hwf
      obtain ⟨t2, h3⟩ := ih t (stepEvent s DetEvent.enableEv).1 E hndr hwf2 (inv_enable h)
      refine ⟨t2, ?_⟩
      have hsnd : (stepEvent s DetEvent.enableEv).2 = [] := rfl
      simpa [runEvents, hsnd] using h3
    | disableEv =>
      have hnd1 : decide (s.pending = [])
          && noDisableInFlight (stepEvent s DetEvent.disableEv).1 rest = true := by
        simpa [noDisableInFlight] using hnd
      obtain ⟨hc, hndr⟩ := Bool.and_eq_true_iff.mp hnd1
      have hp : s.pending = [] := of_decide_eq_true hc
      have hwf2 : wfEvents t (stepEvent s DetEvent.disableEv).1 rest = true := by
        simpa [wfEvents] using hwf
      obtain ⟨t2, h3⟩ := ih t (stepEvent s DetEvent.disableEv).1 E
        (of_decide_eq_true hndr) hwf2 (inv_disable h hp)
      refine ⟨t2, ?_⟩
      have hsnd : (stepEvent s DetEvent.disableEv).2 = [] := rfl
      simpa [runEvents, hsnd] using h3
    | click now target =>
      have hndr : noDisableInFlight (stepEvent s (DetEvent.click now target)).1 rest
          = true := by
        simpa [noDisableInFlight] using hnd
      have hwf1 : decide (t < now)
          && wfEvents now (stepEvent s (DetEvent.click now target)).1 rest = true := by
        simpa [wfEvents] using hwf
      obtain ⟨hlt, hwf2⟩ := Bool.and_eq_true_iff.mp hwf1
      have hlt2 : t < now := of_decide_eq_true hlt
      obtain ⟨t2, h3⟩ := ih now (stepEvent s (DetEvent.click now target)).1 E hndr
        (of_decide_eq_true hwf2) (inv_click now target h hlt2)
      refine ⟨t2, ?_⟩
      have hsnd : (stepEvent s (DetEvent.click now target)).2 = [] := rfl
      simpa [runEvents, hsnd] using h3
    | timerFire now dom acq =>
      have hndr : noDisableInFlight (stepEvent s (DetEvent.timerFire now dom acq)).1 rest
          = true := by
        simpa [noDisableInFlight] using hnd
      have hwf1 : (decide (t < now) && decide (s.pending ≠ []))
          && wfEvents now (stepEvent s (DetEvent.timerFire now dom acq)).1 rest = true := by
        simpa [wfEvents, Bool.and_assoc] using hwf
      obtain ⟨hlt, hwf2⟩ := Bool.and_eq_true_iff.mp hwf1
      have hlt2 : t < now := of_decide_eq_true (Bool.and_eq_true_iff.mp hlt).1
      obtain ⟨t2, h3⟩ := ih now (stepEvent s (DetEvent.timerFire now dom acq)).1
        (E ++ (stepEvent s (DetEvent.timerFire now dom acq)).2) hndr
        (of_decide_eq_true hwf2) (inv_fire now dom acq h hlt2)
      refine ⟨t2, ?_⟩
      simpa [runEvents, List.append_assoc] using h3

lemma wfEvents_append_left :
    ∀ (pfx rest : List DetEvent) (t : Nat) (s : DetectorState),
      wfEvents t s (pfx ++ rest) = true → wfEvents t s pfx = true := by
  intro pfx
  induction pfx with
  | nil => intro rest t s _; rfl
  | cons ev pfx2 ih =>
    intro rest t s hwf
    cases ev with
    | enableEv =>
      simp only [List.cons_append, wfEvents] at hwf ⊢
      exact ih rest t _ hwf
    | disableEv =>
      simp only [List.cons_append, wfEvents] at hwf ⊢
      exact ih rest t _ hwf
    | click now target =>
      simp only [List.cons_append, wfEvents, Bool.and_eq_true] at hwf ⊢
      exact ⟨hwf.1, ih rest now _ hwf.2⟩
    | timerFire now dom acq =>
      simp only [List.cons_append, wfEvents, Bool.and_eq_true] at hwf ⊢
      exact ⟨hwf.1, ih rest now _ hwf.2⟩

lemma noDisableInFlight_append_left :
    ∀ (pfx rest : List DetEvent) (s : DetectorState),
      noDisableInFlight s (pfx ++ rest) = true → noDisableInFlight s pfx = true := by
  intro pfx
  induction pfx with
  | nil => intro rest s _; rfl
  | cons ev pfx2 ih =>
    intro rest s hnd
    cases ev with
    | enableEv =>
      simp only [List.cons_append, noDisableInFlight, Bool.true_and] at hnd ⊢
      exact ih rest _ hnd
    | disableEv =>
      simp only [List.cons_append, noDisableInFlight, Bool.and_eq_true] at hnd ⊢
      exact ⟨hnd.1, ih rest _ hnd.2⟩
    | click now target =>
      simp only [List.cons_append, noDisableInFlight, Bool.true_and] at hnd ⊢
      exact ih rest _ hnd
    | timerFire now dom acq =>
      simp only [List.cons_append, noDisableInFlight, Bool.true_and] at hnd ⊢
      exact ih rest _ hnd

/-! ## Claim C5 — capture cooldown -/

/-- C5 (amended): a qualifying click arriving less than 3000 ms after the
last successful capture is abandoned at click time regardless of
candidate validity (the state is unchanged and nothing is scheduled, so
no `DetectedImage` is emitted for it); and, provided `disable()` is
never called while a detection is in flight (idle `disable()` /
`enable()` pairs are permitted anywhere in the trace), the clicks
behind any two emissions are at least the cooldown window apart — in
particular two qualifying clicks less than 3000 ms apart, whatever URL
they resolve to, never both produce a `DetectedImage`, so of two such
clicks resolving to the same source URL only the first can produce
one. -/
theorem c5_cooldown_suppresses_captures :
    (∀ (s : DetectorState) (now : Nat) (target : ClickTarget) (info : ClickedImageInfo),
      s.isEnabled = true → s.isProcessing = false →
      findClickedImage target = some info →
      now - s.lastCaptureTime < CAPTURE_COOLDOWN_MS →
      stepEvent s (DetEvent.click now target) = (s, []))
    ∧ (∀ evs : List DetEvent,
        noDisableInFlight initState evs = true →
        wfEvents 0 initState evs = true →
        ∀ e1 ∈ (runEvents initState evs).2, ∀ e2 ∈ (runEvents initState evs).2,
          e1.clickTime < e2.clickTime →
          e1.clickTime + CAPTURE_COOLDOWN_MS ≤ e2.clickTime) := by
  constructor
  · intro s now target info hen hproc hfnd hcd
    have hh : handleClick s now target = s := by
      unfold handleClick
      simp [hproc, hfnd, hcd]
    simp [stepEvent, hen, hh]
  · intro evs hnd hwf e1 he1 e2 he2 hlt
    obtain ⟨t2, h⟩ := runEvents_inv evs 0 initState [] hnd hwf detInv_init
    simp only [List.nil_append] at h
    exact h.gap e1 he1 e2 he2 hlt

/-- The image with source URL X of the C5 counterexample. -/
def imgC5x : ImgEl :=
  { src := "https://shop.example/x.jpg", currentSrc := "",
    naturalWidth := 600, naturalHeight := 600, offsetWidth := 0, offsetHeight := 0,
    rect := { width := 600, height := 600, top := 0, bottom := 600, left := 0, right := 600 } }

/-- The image with source URL Y of the C5 counterexample. -/
def imgC5y : ImgEl :=
  { src := "https://shop.example/y.jpg", currentSrc := "",
    naturalWidth := 600, naturalHeight := 600, offsetWidth := 0, offsetHeight := 0,
    rect := { width := 600, height := 600, top := 0, bottom := 600, left := 0, right := 600 } }

/-- A click directly on `imgC5x`. -/
def targetC5x : ClickTarget :=
  { targetImg := some imgC5x, containedImg := none, containerImg := none }

/-- A click directly on `imgC5y`. -/
def targetC5y : ClickTarget :=
  { targetImg := some imgC5y, containedImg := none, containerImg := none }

/-- The page at the fires of the X-clicks of the C5 counterexample. -/
def domC5x : DomState :=
  { elements := [], imgs := [imgC5x], innerWidth := 1280, innerHeight := 800 }

/-- The page at the fire of the Y-click of the C5 counterexample
(the page's own JS swapped the image in between). -/
def domC5y : DomState :=
  { elements := [], imgs := [imgC5y], innerWidth := 1280, innerHeight := 800 }

/-- The acquisition oracle of the C5 counterexample. -/
def acqC5 : ImgEl → Option String := fun _ => some "data:image/png;base64,Q0NDQw=="

/-- The C5 counterexample trace: three qualifying clicks at t = 10000
(URL X), t = 10030 (URL Y) and t = 10060 (URL X), each preceded by a
`disable()`/`enable()` pair that re-arms the detector while the previous
settle timer is still pending; the three timers fire in FIFO order at
their nominal times t + 800. -/
def evsC5 : List DetEvent :=
  [DetEvent.enableEv, DetEvent.click 10000 targetC5x,
   DetEvent.disableEv, DetEvent.enableEv, DetEvent.click 10030 targetC5y,
   DetEvent.disableEv, DetEvent.enableEv, DetEvent.click 10060 targetC5x,
   DetEvent.timerFire 10800 domC5x acqC5,
   DetEvent.timerFire 10830 domC5y acqC5,
   DetEvent.timerFire 10860 domC5x acqC5]

/-- C5 counterexample: the qualifying clicks at t = 10000 and t = 10060
are 60 ms (< 3000 ms) apart and both resolve to the same source URL X,
yet BOTH produce a `DetectedImage` (the first and third emission below),
because `disable()` does not cancel the pending settle timer, re-enabling
accepts further clicks, and the intervening Y-capture rewrites
`lastCapturedSrc` so `captureImage`'s duplicate check does not fire. -/
theorem c5_counterexample :
    (runEvents initState evsC5).2.map Emission.clickTime = [10000, 10030, 10060]
    ∧ (runEvents initState evsC5).2.map Emission.src
      = ["https://shop.example/x.jpg", "https://shop.example/y.jpg",
         "https://shop.example/x.jpg"] := by decide

/-- A cooldown-active state for the C5 witness. -/
def sC5w : DetectorState :=
  { isEnabled := true, isProcessing := false,
    lastCapturedSrc := some "https://shop.example/w.jpg", lastCaptureTime := 9000,
    pending := [] }

/-- The image of the C5 witness. -/
def imgC5w : ImgEl :=
  { src := "https://shop.example/w.jpg", currentSrc := "",
    naturalWidth := 600, naturalHeight := 600, offsetWidth := 0, offsetHeight := 0,
    rect := { width := 600, height := 600, top := 0, bottom := 600, left := 0, right := 600 } }

/-- A click directly on `imgC5w`. -/
def targetC5w : ClickTarget :=
  { targetImg := some imgC5w, containedImg := none, containerImg := none }

/-- The resolution of `targetC5w`. -/
def infoC5w : ClickedImageInfo :=
  { src := "https://shop.example/w.jpg", width := 600, height := 600,
    rect := { width := 600, height := 600, top := 0, bottom := 600, left := 0, right := 600 } }

/-- The page for the C5 witness trace. -/
def domC5w : DomState :=
  { elements := [], imgs := [imgC5w], innerWidth := 1280, innerHeight := 800 }

/-- The acquisition oracle of the C5 witness trace. -/
def acqC5w : ImgEl → Option String := fun _ => some "data:image/png;base64,RERERA=="

/-- A C5 witness trace with two captures 4000 ms apart; it starts with
an idle `disable()` / `enable()` pair (no detection pending), which the
amended claim permits. -/
def evsC5w : List DetEvent :=
  [DetEvent.enableEv, DetEvent.disableEv, DetEvent.enableEv,
   DetEvent.click 10000 targetC5w,
   DetEvent.timerFire 10800 domC5w acqC5w,
   DetEvent.click 14000 targetC5w,
   DetEvent.timerFire 14800 domC5w acqC5w]

/-- First emission of `evsC5w`. -/
def e1C5w : Emission :=
  { detected := { dataUrl := "data:image/png;base64,RERERA==", width := 600, height := 600,
                  source := ImgSource.direct },
    src := "https://shop.example/w.jpg", time := 10800, clickTime := 10000 }

/-- Second emission of `evsC5w`. -/
def e2C5w : Emission :=
  { detected := { dataUrl := "data:image/png;base64,RERERA==", width := 600, height := 600,
                  source := ImgSource.direct },
    src := "https://shop.example/w.jpg", time := 14800, clickTime := 14000 }

theorem c5_witness :
    stepEvent sC5w (DetEvent.click 10000 targetC5w) = (sC5w, [])
    ∧ e1C5w.clickTime + CAPTURE_COOLDOWN_MS ≤ e2C5w.clickTime :=
  ⟨c5_cooldown_suppresses_captures.1 sC5w 10000 targetC5w infoC5w rfl rfl
      (by decide) (by decide),
   c5_cooldown_suppresses_captures.2 evsC5w (by decide) (by decide)
      e1C5w (by decide) e2C5w (by decide) (by decide)⟩

/-! ## Claim C9 — at most one detection in flight -/

/-- C9 (amended): as long as `disable()` is not called while a detection
is in flight (idle `disable()` / `enable()` pairs are permitted anywhere
in the trace), at most one detection sequence is pending at any point of
the run and the busy flag is set exactly while one is; independently, a
click arriving while the busy flag is set is dropped with no state
change — in particular it is never queued. -/
theorem c9_at_most_one_detection (evs pfx rest : List DetEvent)
    (hsplit : evs = pfx ++ rest)
    (hnd : noDisableInFlight initState evs = true)
    (hwf : wfEvents 0 initState evs = true) :
    ((runEvents initState pfx).1.pending.length ≤ 1
      ∧ ((runEvents initState pfx).1.isProcessing = true
          ↔ (runEvents initState pfx).1.pending ≠ []))
    ∧ (∀ (s : DetectorState) (now : Nat) (target : ClickTarget),
        s.isProcessing = true → stepEvent s (DetEvent.click now target) = (s, [])) := by
  constructor
  · subst hsplit
    have hndp : noDisableInFlight initState pfx = true :=
      noDisableInFlight_append_left pfx rest initState hnd
    have hwfp : wfEvents 0 initState pfx = true :=
      wfEvents_append_left pfx rest 0 initState hwf
    obtain ⟨t2, h⟩ := runEvents_inv pfx 0 initState [] hndp hwfp detInv_init
    exact ⟨h.at_most_one, h.proc_iff⟩
  · intro s now target hproc
    have hh : handleClick s now target = s := by
      unfold handleClick
      simp [hproc]
    by_cases hen : s.isEnabled = true <;> simp [stepEvent, hen, hh]

/-- The image of the C9 counterexample and witness. -/
def imgC9 : ImgEl :=
  { src := "https://shop.example/c9.jpg", currentSrc := "",
    naturalWidth := 600, naturalHeight := 600, offsetWidth := 0, offsetHeight := 0,
    rect := { width := 600, height := 600, top := 0, bottom := 600, left := 0, right := 600 } }

/-- A click directly on `imgC9`. -/
def targetC9 : ClickTarget :=
  { targetImg := some imgC9, containedImg := none, containerImg := none }

/-- The C9 counterexample trace: a qualifying click, then
`disable()` / `enable()` (which resets the busy flag without cancelling
the pending settle timer), then a second qualifying click. -/
def evsC9 : List DetEvent :=
  [DetEvent.enableEv, DetEvent.click 10000 targetC9,
   DetEvent.disableEv, DetEvent.enableEv, DetEvent.click 10100 targetC9]

/-- C9 counterexample: after the second click of `evsC9` two settle
timers — two detection sequences — are simultaneously in flight,
refuting "at most one detection sequence is in flight at a time" as an
unconditional invariant: `disable()` clears the busy flag but leaves the
first timer pending. -/
theorem c9_counterexample :
    (runEvents initState evsC9).1.pending.length = 2 := by decide

/-- The page for the C9 witness trace. -/
def domC9w : DomState :=
  { elements := [], imgs := [imgC9], innerWidth := 1280, innerHeight := 800 }

/-- The acquisition oracle of the C9 witness trace. -/
def acqC9w : ImgEl → Option String := fun _ => some "data:image/png;base64,RUVFRQ=="

/-- Prefix of the C9 witness trace (state observed mid-detection); it
starts with an idle `disable()` / `enable()` pair (no detection
pending), which the amended claim permits. -/
def pfxC9w : List DetEvent :=
  [DetEvent.enableEv, DetEvent.disableEv, DetEvent.enableEv,
   DetEvent.click 10000 targetC9]

/-- Remainder of the C9 witness trace. -/
def restC9w : List DetEvent :=
  [DetEvent.timerFire 10800 domC9w acqC9w]

/-- The full C9 witness trace. -/
def evsC9w : List DetEvent := pfxC9w ++ restC9w

/-- A busy detector state for the C9 witness's drop property. -/
def sBusyC9w : DetectorState :=
  { isEnabled := true, isProcessing := true, lastCapturedSrc := none,
    lastCaptureTime := 0,
    pending := [{ clicked := { src := "https://shop.example/c9.jpg", width := 600,
                               height := 600,
                               rect := { width := 600, height := 600, top := 0,
                                         bottom := 600, left := 0, right := 600 } },
                  clickTime := 10000, fireTime := 10800 }] }

theorem c9_witness :
    ((runEvents initState pfxC9w).1.pending.length ≤ 1
      ∧ ((runEvents initState pfxC9w).1.isProcessing = true
          ↔ (runEvents initState pfxC9w).1.pending ≠ []))
    ∧ stepEvent sBusyC9w (DetEvent.click 11000 targetC9) = (sBusyC9w, []) :=
  ⟨(c9_at_most_one_detection evsC9w pfxC9w restC9w rfl (by decide) (by decide)).1,
   (c9_at_most_one_detection evsC9w pfxC9w restC9w rfl (by decide) (by decide)).2
      sBusyC9w 11000 targetC9 rfl⟩

/-! ## Pipeline lemmas -/

lemma strToList_append (a b : String) : (a ++ b).toList = a.toList ++ b.toList := rfl

/-- A reader result built from a content type that does not begin with
`image/` never matches the image data-URL pattern. -/
lemma matchesImageDataUrl_false_of_type {t : String} (p : String)
    (h : startsWithS t "image/" = false) :
    matchesImageDataUrl ("data:" ++ t ++ (";base64," ++ p)) = false := by
  have hkey : ¬ (("data:" ++ t ++ (";base64," ++ p)).toList.take
      (("data:image/").toList.length) = ("data:image/").toList) := by
    intro hcontra
    have hcs : ("data:" ++ t ++ (";base64," ++ p)).toList
        = ("data:").toList ++ (t.toList ++ (';' :: ("base64," ++ p).toList)) := by
      simp only [strToList_append, List.append_assoc]
      rw [show (";base64,").toList = ';' :: ("base64,").toList from by decide]
      simp
    rw [hcs] at hcontra
    rw [show ("data:image/").toList.length = 11 from by decide] at hcontra
    rw [List.take_append_eq_append_take] at hcontra
    rw [show List.take 11 (("data:").toList) = ("data:").toList from by decide] at hcontra
    rw [show 11 - (("data:").toList).length = 6 from by decide] at hcontra
    rw [show ("data:image/").toList
        = ("data:").toList ++ ("image/").toList from by decide] at hcontra
    have hcontra2 : (t.toList ++ (';' :: ("base64," ++ p).toList)).take 6
        = ("image/").toList := List.append_cancel_left hcontra
    by_cases h6 : 6 ≤ t.toList.length
    · rw [List.take_append_of_le_length h6] at hcontra2
      have hsw : startsWithS t "image/" = true := by
        unfold startsWithS
        rw [show ("image/").toList.length = 6 from by decide]
        exact decide_eq_true hcontra2
      rw [hsw] at h
      simp at h
    · push_neg at h6
      rw [List.take_append_eq_append_take, List.take_of_length_le (le_of_lt h6)] at hcontra2
      obtain ⟨m, hm⟩ : ∃ m, 6 - t.toList.length = m + 1 :=
        ⟨6 - t.toList.length - 1, by omega⟩
      rw [hm, List.take_succ_cons] at hcontra2
      have hmem : ';' ∈ t.toList ++ (';' :: (("base64," ++ p).toList.take m)) := by simp
      rw [hcontra2] at hmem
      revert hmem
      decide
  unfold matchesImageDataUrl
  rw [decide_eq_false hkey]
  simp

lemma startsWithS_of_jpeg_png {t : String}
    (h : startsWithS t "image/" = false) :
    ¬ (t = "image/jpeg" ∨ t = "image/png") := by
  rintro (rfl | rfl) <;> simp [startsWithS] at h

/-! ## Claim C7 — network refetch -/

/-- C7 (amended): the content-script refetch (`fetchImageAsDataUrl`)
first issues the request with mode `cors` / credentials omitted; when
that request resolves to a successful (ok) response no second request is
made; when it resolves to an unsuccessful response it is retried with
credentials included; the tier fails when the final response is not ok,
or when the content type does not indicate an image (and the blob cannot
be re-encoded).  The detector-internal refetch tier (`imageToDataUrl`,
Method 2) issues only the single omit-credentials request and fails with
no credentialed retry when it does not succeed. -/
theorem c7_network_refetch (env : FetchEnv) (imageUrl : String) :
    (∀ r1, env.fetchCorsOmit imageUrl = Except.ok r1 → r1.ok = true →
      fetchImageAsDataUrl env imageUrl = fetchResultToDataUrl env.canvasEnv r1.blob)
    ∧ (∀ r1 r2, env.fetchCorsOmit imageUrl = Except.ok r1 → r1.ok = false →
        env.fetchInclude imageUrl = Except.ok r2 → r2.ok = true →
        fetchImageAsDataUrl env imageUrl = fetchResultToDataUrl env.canvasEnv r2.blob)
    ∧ (∀ r1 r2, env.fetchCorsOmit imageUrl = Except.ok r1 → r1.ok = false →
        env.fetchInclude imageUrl = Except.ok r2 → r2.ok = false →
        ∃ msg, fetchImageAsDataUrl env imageUrl = Except.error msg)
    ∧ (∀ r1, env.fetchCorsOmit imageUrl = Except.ok r1 → r1.ok = true →
        startsWithS r1.blob.type "image/" = false →
        env.canvasEnv.createImageBitmap r1.blob = none →
        fetchImageAsDataUrl env imageUrl = Except.error "Invalid data URL format")
    ∧ (∀ (benv : CanvasEnv) (f : String → Except String FetchResponse) (img : ImgEl) r1,
        f (jsOrS img.currentSrc img.src) = Except.ok r1 → r1.ok = false →
        imageToDataUrlFetchTier benv f img = none) := by
  refine ⟨?_, ?_, ?_, ?_, ?_⟩
  · intro r1 h1 hok
    simp [fetchImageAsDataUrl, h1, hok]
  · intro r1 r2 h1 hok1 h2 hok2
    simp [fetchImageAsDataUrl, h1, hok1, h2, hok2]
  · intro r1 r2 h1 hok1 h2 hok2
    exact ⟨"Failed to fetch image: " ++ ("Failed to fetch image: " ++ toString r2.status),
      by simp [fetchImageAsDataUrl, h1, hok1, h2, hok2]⟩
  · intro r1 h1 hok htype hbmp
    have hnorm : normalizeImageFormat env.canvasEnv r1.blob = r1.blob := by
      unfold normalizeImageFormat
      rw [if_neg (startsWithS_of_jpeg_png htype), hbmp]
    have hfail : fetchResultToDataUrl env.canvasEnv r1.blob
        = Except.error "Invalid data URL format" := by
      simp only [fetchResultToDataUrl, readerResult, hnorm]
      rw [matchesImageDataUrl_false_of_type r1.blob.dataB64 htype]
      simp
    rw [← hfail]
    simp [fetchImageAsDataUrl, h1, hok]
  · intro benv f img r1 h1 hok
    simp [imageToDataUrlFetchTier, h1, hok]

/-- The blob served by the C7 example servers. -/
def blobC7 : Blob := { type := "image/jpeg", dataB64 := "QQ==" }

/-- Canvas environment of the C7 examples (nothing decodable). -/
def benvC7 : CanvasEnv :=
  { createImageBitmap := fun _ => none, getContext2dOk := true, toBlobPng := fun _ => none }

/-- The omit-credentials fetch of the C7 examples: the server answers 401
(resolved, not ok) without credentials. -/
def fOmitC7 : String → Except String FetchResponse :=
  fun _ => Except.ok { ok := false, status := 401, blob := blobC7 }

/-- The include-credentials fetch of the C7 examples: with credentials
the same server answers 200 with the image. -/
def fIncC7 : String → Except String FetchResponse :=
  fun _ => Except.ok { ok := true, status := 200, blob := blobC7 }

/-- The full fetch environment of the C7 examples. -/
def envC7 : FetchEnv :=
  { fetchCorsOmit := fOmitC7, fetchInclude := fIncC7, canvasEnv := benvC7 }

/-- The canvas-draw environment of the C7 counterexample: the canvas is
tainted, forcing the network tier. -/
def cdrawC7 : CanvasDrawEnv :=
  { getContext2dOk := true, toDataURL := fun _ => Except.error "SecurityError" }

/-- The image element of the C7 counterexample. -/
def imgC7 : ImgEl :=
  { src := "https://shop.example/c7.jpg", currentSrc := "",
    naturalWidth := 600, naturalHeight := 600, offsetWidth := 0, offsetHeight := 0,
    rect := { width := 600, height := 600, top := 0, bottom := 600, left := 0, right := 600 } }

/-- C7 counterexample: with the first (omit-credentials) request
resolving to an unsuccessful response, the claim requires a retry that
includes credentials — which here would succeed.  The detector-internal
network-refetch tier (`imageToDataUrl`, cited by the claim) performs no
such retry and fails, while the content-script variant
(`fetchImageAsDataUrl`) retries and succeeds on the same environment. -/
theorem c7_counterexample :
    imageToDataUrl cdrawC7 benvC7 fOmitC7 imgC7 = none
    ∧ fetchImageAsDataUrl envC7 "https://shop.example/c7.jpg"
      = Except.ok "data:image/jpeg;base64,QQ==" := ⟨rfl, rfl⟩

theorem c7_witness :
    fetchImageAsDataUrl envC7 "https://shop.example/c7.jpg"
      = fetchResultToDataUrl benvC7 blobC7
    ∧ imageToDataUrlFetchTier benvC7 fOmitC7 imgC7 = none :=
  ⟨(c7_network_refetch envC7 "https://shop.example/c7.jpg").2.1
      { ok := false, status := 401, blob := blobC7 }
      { ok := true, status := 200, blob := blobC7 } rfl rfl rfl rfl,
   (c7_network_refetch envC7 "https://shop.example/c7.jpg").2.2.2.2 benvC7 fOmitC7 imgC7
      { ok := false, status := 401, blob := blobC7 } rfl rfl⟩

/-! ## Claim C8 — format normalization -/

/-- C8 (amended): the content-script normalization
(`normalizeImageFormat`) returns the fetched binary unchanged when its
declared type is `image/jpeg` or `image/png`, while the detector-internal
normalization (`convertToPng`) passes only `image/png` through unchanged
and re-encodes JPEG; in both, any other type is decoded to a bitmap and
re-encoded to PNG via a drawing surface, and every failure of that step
(bitmap decode throws, no 2d context, `toBlob` yields null) passes the
original bytes through unchanged rather than failing the capture. -/
theorem c8_format_normalization (env : CanvasEnv) (blob : Blob) :
    (blob.type = "image/jpeg" ∨ blob.type = "image/png" →
      normalizeImageFormat env blob = blob)
    ∧ (blob.type = "image/png" → convertToPng env blob = blob)
    ∧ (env.createImageBitmap blob = none →
        normalizeImageFormat env blob = blob ∧ convertToPng env blob = blob)
    ∧ (env.getContext2dOk = false →
        normalizeImageFormat env blob = blob ∧ convertToPng env blob = blob)
    ∧ (∀ bitmap, env.createImageBitmap blob = some bitmap → env.toBlobPng bitmap = none →
        normalizeImageFormat env blob = blob ∧ convertToPng env blob = blob)
    ∧ (∀ bitmap out, ¬(blob.type = "image/jpeg" ∨ blob.type = "image/png") →
        env.createImageBitmap blob = some bitmap → env.getContext2dOk = true →
        env.toBlobPng bitmap = some out → normalizeImageFormat env blob = out)
    ∧ (∀ bitmap out, blob.type ≠ "image/png" →
        env.createImageBitmap blob = some bitmap → env.getContext2dOk = true →
        env.toBlobPng bitmap = some out → convertToPng env blob = out) := by
  refine ⟨?_, ?_, ?_, ?_, ?_, ?_, ?_⟩
  · intro h
    simp [normalizeImageFormat, h]
  · intro h
    simp [convertToPng, h]
  · intro h
    constructor
    · by_cases ht : blob.type = "image/jpeg" ∨ blob.type = "image/png" <;>
        simp [normalizeImageFormat, ht, h]
    · by_cases ht : blob.type = "image/png" <;> simp [convertToPng, ht, h]
  · intro h
    constructor
    · by_cases ht : blob.type = "image/jpeg" ∨ blob.type = "image/png"
      · simp [normalizeImageFormat, ht]
      · cases hb : env.createImageBitmap blob <;> simp [normalizeImageFormat, ht, hb, h]
    · by_cases ht : blob.type = "image/png"
      · simp [convertToPng, ht]
      · cases hb : env.createImageBitmap blob <;> simp [convertToPng, ht, hb, h]
  · intro bitmap hb hout
    constructor
    · by_cases ht : blob.type = "image/jpeg" ∨ blob.type = "image/png"
      · simp [normalizeImageFormat, ht]
      · by_cases hctx : env.getContext2dOk = false <;>
          simp [normalizeImageFormat, ht, hb, hctx, hout]
    · by_cases ht : blob.type = "image/png"
      · simp [convertToPng, ht]
      · by_cases hctx : env.getContext2dOk = false <;>
          simp [convertToPng, ht, hb, hctx, hout]
  · intro bitmap out ht hb hctx hout
    simp [normalizeImageFormat, ht, hb, hctx, hout]
  · intro bitmap out ht hb hctx hout
    simp [convertToPng, ht, hb, hctx, hout]

/-- The canvas environment of the C8 examples: decode and re-encode both
succeed, producing a fresh PNG blob. -/
def envC8 : CanvasEnv :=
  { createImageBitmap := fun _ => some { width := 2, height := 2 },
    getContext2dOk := true,
    toBlobPng := fun _ => some { type := "image/png", dataB64 := "UE5H" } }

/-- A JPEG blob. -/
def jpegC8 : Blob := { type := "image/jpeg", dataB64 := "SlBFRw==" }

/-- C8 counterexample: the claim says format normalization returns the
fetched binary unchanged when its declared type is JPEG or PNG; the
detector-internal `convertToPng` (cited by the claim) re-encodes a JPEG
blob whenever the drawing-surface path succeeds, returning different
bytes, while the content-script `normalizeImageFormat` passes the same
JPEG through unchanged. -/
theorem c8_counterexample :
    convertToPng envC8 jpegC8 ≠ jpegC8
    ∧ normalizeImageFormat envC8 jpegC8 = jpegC8 := by decide

theorem c8_witness :
    normalizeImageFormat envC8 jpegC8 = jpegC8
    ∧ convertToPng envC8 jpegC8 = { type := "image/png", dataB64 := "UE5H" } :=
  ⟨(c8_format_normalization envC8 jpegC8).1 (Or.inl rfl),
   (c8_format_normalization envC8 jpegC8).2.2.2.2.2.2 { width := 2, height := 2 }
      { type := "image/png", dataB64 := "UE5H" } (by decide) rfl rfl rfl⟩
